import Mathlib

/-! Fluctus: the OptiX denoiser driver (`src/denoiser/OptixDenoiser.cpp`).

A shallow embedding of `DenoiserOptix` (`bindBuffers`, `resizeBuffers`, `denoise`,
`setBlend`, `setupDenoiser`).  The class talks to three outside libraries (OpenGL, the
CUDA runtime, OptiX).  Every call that crosses this boundary is recorded, in program
order, in a log together with what the library answered; the answers themselves are
not fixed by the model but supplied by an arbitrary environment, so that each theorem
holds for every possible behaviour of the libraries.
-/

namespace Fluctus

/-! ## Values -/

/-- Single-precision values as seen by the comparison operators: not-a-number, the two
infinities and the finite values.  `setBlend` performs no arithmetic, it only compares and
selects, so finite values are kept as exact rationals; the two signed zeros compare equal
and are identified. -/
inductive F32 where
  | nan
  | negInf
  | fin (q : ℚ)
  | posInf
deriving DecidableEq

/-- The operator `<` on floats: false as soon as one side is not-a-number. -/
def F32.lt : F32 → F32 → Bool
  | .nan, _ => false
  | _, .nan => false
  | .negInf, .negInf => false
  | .negInf, _ => true
  | .fin _, .negInf => false
  | .fin a, .fin b => decide (a < b)
  | .fin _, .posInf => true
  | .posInf, _ => false

/-- The operator `<=` on floats: false as soon as one side is not-a-number. -/
def F32.le : F32 → F32 → Bool
  | .nan, _ => false
  | _, .nan => false
  | .negInf, _ => true
  | .fin _, .negInf => false
  | .fin a, .fin b => decide (a ≤ b)
  | .fin _, .posInf => true
  | .posInf, .posInf => true
  | .posInf, _ => false

/-- The library function `std::min(a, b)`: `(b < a) ? b : a`. -/
def stdMin (a b : F32) : F32 := if F32.lt b a then b else a

/-- The library function `std::max(a, b)`: `(a < b) ? b : a`. -/
def stdMax (a b : F32) : F32 := if F32.lt a b then b else a

/-- The literal `0.0f`. -/
def F32.zero : F32 := .fin 0

/-- The literal `1.0f`. -/
def F32.one : F32 := .fin 1

/-- The three shared pixel buffers, named after the member that holds their interop
handle (`handleColor`, `handleNormal`, `handleAlbedo`). -/
inductive Channel where
  | color
  | normal
  | albedo
deriving DecidableEq, Repr

/-- The values of `cudaGraphicsRegisterFlags` used by the source. -/
inductive RegisterFlags where
  | none
  | readOnly
  | writeDiscard
deriving DecidableEq, Repr

/-- The values of `OptixPixelFormat`. -/
inductive OptixPixelFormat where
  | half3
  | half4
  | float3
  | float4
  | uchar3
  | uchar4
deriving DecidableEq, Repr

/-- The values of `OptixDenoiserInputKind`. -/
inductive OptixDenoiserInputKind where
  | rgb
  | rgbAlbedo
  | rgbAlbedoNormal
deriving DecidableEq, Repr

/-- The values of `OptixDenoiserModelKind`. -/
inductive OptixDenoiserModelKind where
  | user
  | ldr
  | hdr
deriving DecidableEq, Repr

/-- The image descriptor `OptixImage2D`; all members but `data` are `unsigned int`. -/
structure OptixImage2D where
  data : Nat
  width : Nat
  height : Nat
  rowStrideInBytes : Nat
  pixelStrideInBytes : Nat
  format : OptixPixelFormat
deriving DecidableEq

/-- The parameter block `OptixDenoiserParams`. -/
structure OptixDenoiserParams where
  denoiseAlpha : Nat
  hdrIntensity : Nat
  blendFactor : F32
deriving DecidableEq

/-- The options block `OptixDenoiserOptions`. -/
structure OptixDenoiserOptions where
  inputKind : OptixDenoiserInputKind
  pixelFormat : OptixPixelFormat
deriving DecidableEq

/-- The answer block `OptixDenoiserSizes` of the memory-requirements query. -/
structure OptixDenoiserSizes where
  stateSizeInBytes : Nat
  minimumScratchSizeInBytes : Nat
  recommendedScratchSizeInBytes : Nat
deriving DecidableEq

/-- The three device buffers owned by the denoiser. -/
inductive BufferId where
  | intensity
  | scratch
  | state
deriving DecidableEq, Repr

/-- Modelled from the spec: the class `CUDABuffer` (the type of `denoiserIntensity`,
`denoiserScratch` and `denoiserState`), whose declaration is not among the sources.  A
buffer is a device pointer and a byte size; `d_pointer()` and `size()` read them, and
`resize(n)` reallocates the storage so that it is sized `n` (spec 4.2: setup "reallocates
scratch/state sized per the query"). -/
structure CUDABuffer where
  d_ptr : Nat
  sizeInBytes : Nat
deriving DecidableEq

/-- The accessor `CUDABuffer::d_pointer()`. -/
def CUDABuffer.d_pointer (b : CUDABuffer) : Nat := b.d_ptr

/-- The accessor `CUDABuffer::size()`. -/
def CUDABuffer.size (b : CUDABuffer) : Nat := b.sizeInBytes

/-- What `bindBuffers` and `resizeBuffers` read from a `PTWindow`: `getTexWidth()`,
`getTexHeight()`, `getPBO()`, `getNormalPBO()` and `getAlbedoPBO()`. -/
structure PTWindow where
  texWidth : Nat
  texHeight : Nat
  pbo : Nat
  normalPBO : Nat
  albedoPBO : Nat
deriving DecidableEq

/-! ## The boundary to OpenGL, CUDA and OptiX -/

/-- One call into an outside library, with the arguments the source passes.  Calls that
receive the address of a handle member (`&cudaResourceBuf`) carry the member's name and the
handle value stored there.  `graphicsUnregisterResource` is the CUDA call that releases an
interop registration; it belongs to the vocabulary so that leaks can be stated. -/
inductive Call where
  | glBindBuffer (pbo : Nat)
  | graphicsGLRegisterBuffer (dst : Channel) (pbo : Nat) (flags : RegisterFlags)
  | graphicsMapResources (member : Channel) (res : Nat)
  | graphicsResourceGetMappedPointer (res : Nat)
  | graphicsUnmapResources (member : Channel) (res : Nat)
  | graphicsUnregisterResource (res : Nat)
  | denoiserDestroy (d : Nat)
  | denoiserCreate (ctx : Nat) (options : OptixDenoiserOptions)
  | denoiserSetModel (d : Nat) (kind : OptixDenoiserModelKind)
  | denoiserComputeMemoryResources (d : Nat) (width height : Nat)
  | bufferResize (buf : BufferId) (size : Nat)
  | denoiserSetup (d : Nat) (width height : Nat) (state stateSize scratch scratchSize : Nat)
  | denoiserComputeIntensity (d : Nat) (input : OptixImage2D)
      (outputIntensity scratch scratchSize : Nat)
  | denoiserInvoke (d : Nat) (params : OptixDenoiserParams) (state stateSize : Nat)
      (inputLayers : List OptixImage2D) (numInputLayers : Nat) (inputOffsetX inputOffsetY : Nat)
      (outputLayer : OptixImage2D) (scratch scratchSize : Nat)
  | deviceSynchronize
deriving DecidableEq

/-- What a library call answers: whether it succeeded, and the values it wrote through its
out-parameters (a handle or device pointer, a byte count, the denoiser sizes).  A call uses
only the parts that concern it. -/
structure Reply where
  ok : Bool
  ptr : Nat
  numBytes : Nat
  sizes : OptixDenoiserSizes
deriving DecidableEq

/-- The outside world: the answer to the `k`-th library call of the run, for every `k`. -/
abbrev Env := Nat → Reply

/-- A logged library call together with its answer. -/
structure Event where
  call : Call
  reply : Reply
deriving DecidableEq

/-- The members of `DenoiserOptix` used by the source, followed by the two observable
effects of a run: the log of library calls and the lines written to `std::cerr` (each line
is the pair of byte counts it reports). -/
structure DenoiserOptix where
  optixContext : Nat
  handleColor : Nat
  handleNormal : Nat
  handleAlbedo : Nat
  denoiser : Nat
  denoiserIntensity : CUDABuffer
  denoiserScratch : CUDABuffer
  denoiserState : CUDABuffer
  fbWidth : Nat
  fbHeight : Nat
  denoiseBlend : F32
  trace : List Event
  cerr : List (Nat × Nat)
deriving DecidableEq

/-- How a member function ends: it returns, or a failed library call ends it early.  Both
carry the object as it is at that point. -/
inductive Res (α : Type) where
  | ok (a : α) (s : DenoiserOptix)
  | fail (s : DenoiserOptix)
deriving DecidableEq

/-- A piece of a member function: a computation on the object that may end early. -/
def Exec (α : Type) : Type := DenoiserOptix → Res α

/-- Continue after a result: the rest runs only if the first part did not end early. -/
def Res.andThen {α β : Type} (r : Res α) (f : α → DenoiserOptix → Res β) : Res β :=
  match r with
  | .ok a s' => f a s'
  | .fail s' => .fail s'

/-- Sequencing of two parts of a member function. -/
def Exec.bind {α β : Type} (x : Exec α) (f : α → Exec β) : Exec β := fun s =>
  (x s).andThen f

/-- A part that does nothing and yields a value. -/
def Exec.pure {α : Type} (a : α) : Exec α := fun s => .ok a s

instance : Monad Exec where
  pure := Exec.pure
  bind := Exec.bind

/-- Read the object. -/
def getSelf : Exec DenoiserOptix := fun s => .ok s s

/-- Update the object. -/
def modifySelf (f : DenoiserOptix → DenoiserOptix) : Exec Unit := fun s => .ok () (f s)

/-- The object after one more library call: the call and the answer of the environment
are appended to the log. -/
def DenoiserOptix.logged (s : DenoiserOptix) (env : Env) (c : Call) : DenoiserOptix :=
  { s with trace := s.trace ++ [⟨c, env s.trace.length⟩] }

/-- Issue a library call whose result the source does not test (`glBindBuffer`): the call
is logged with the answer of the environment, and execution goes on. -/
def issue (env : Env) (c : Call) : Exec Reply := fun s =>
  .ok (env s.trace.length) (s.logged env c)

/-- Modelled from the spec: the macros `CUDA_CHECK`, `OPTIX_CHECK` and `CUDA_SYNC_CHECK` of
`utils.h`, which is not among the sources.  The call is issued and logged; if it reports a
failure the enclosing member function is left at once (spec 4.3 speaks of exit paths
"including failure"), otherwise its answer is returned. -/
def check (env : Env) (c : Call) : Exec Reply := fun s =>
  if (env s.trace.length).ok then .ok (env s.trace.length) (s.logged env c)
  else .fail (s.logged env c)

/-- Modelled from the spec: `CUDABuffer::resize(n)`, not among the sources.  The storage is
reallocated through the CUDA runtime; on success the buffer has the new pointer and size
`n`. -/
def bufferResize (env : Env) (buf : BufferId) (n : Nat) : Exec Unit := do
  let r ← check env (.bufferResize buf n)
  modifySelf fun s =>
    match buf with
    | .intensity => { s with denoiserIntensity := ⟨r.ptr, n⟩ }
    | .scratch => { s with denoiserScratch := ⟨r.ptr, n⟩ }
    | .state => { s with denoiserState := ⟨r.ptr, n⟩ }

/-- The handle member named by a channel. -/
def DenoiserOptix.handle (s : DenoiserOptix) : Channel → Nat
  | .color => s.handleColor
  | .normal => s.handleNormal
  | .albedo => s.handleAlbedo

/-- Store a value in the handle member named by a channel. -/
def DenoiserOptix.setHandle (s : DenoiserOptix) (ch : Channel) (v : Nat) : DenoiserOptix :=
  match ch with
  | .color => { s with handleColor := v }
  | .normal => { s with handleNormal := v }
  | .albedo => { s with handleAlbedo := v }

/-! ## The member functions -/

/-- The constant `sizeof(float4)`. -/
def sizeofFloat4 : Nat := 16

/-- The constant `sizeof(float)`. -/
def sizeofFloat : Nat := 4

/-- The expression `(size_t)width * (size_t)height * sizeof(float4)` of `bindBuffers`,
evaluated in 64-bit `size_t` arithmetic. -/
def expectedBytes (width height : Nat) : Nat := (width * height * sizeofFloat4) % 2 ^ 64

/-- The expression `fbWidth * sizeof(float4)` stored in the `unsigned int` member
`rowStrideInBytes`. -/
def rowStride (fbWidth : Nat) : Nat := (fbWidth * sizeofFloat4) % 2 ^ 32

/-- Write one line to `std::cerr`: the size-mismatch message with the two byte counts it
reports. -/
def writeCerr (line : Nat × Nat) : Exec Unit :=
  modifySelf fun s => { s with cerr := s.cerr ++ [line] }

/-- The lambda `create` of `bindBuffers` (lines 51-67), with its captures `width` and
`height`; `dst` names the handle member bound to the reference `cudaResourceBuf`. -/
def create (env : Env) (width height : Nat) (pbo : Nat) (dst : Channel)
    (flags : RegisterFlags) : Exec Unit := do
  let _ ← issue env (.glBindBuffer pbo)
  let reg ← check env (.graphicsGLRegisterBuffer dst pbo flags)
  modifySelf fun s => s.setHandle dst reg.ptr
  let s ← getSelf
  let _ ← check env (.graphicsMapResources dst (s.handle dst))
  let got ← check env (.graphicsResourceGetMappedPointer (s.handle dst))
  let numBytes := got.numBytes
  let expected := expectedBytes width height
  (do if numBytes ≠ expected then writeCerr (numBytes, expected))
  let _ ← check env (.graphicsUnmapResources dst (s.handle dst))
  pure ()

/-- The member function `DenoiserOptix::setupDenoiser` (lines 166-194). -/
def setupDenoiser (env : Env) (width height : Nat) : Exec Unit := do
  let s ← getSelf
  (do if s.denoiser ≠ 0 then
        let _ ← check env (.denoiserDestroy s.denoiser))
  let denoiserOptions : OptixDenoiserOptions :=
    { inputKind := .rgbAlbedo, pixelFormat := .float4 }
  let made ← check env (.denoiserCreate s.optixContext denoiserOptions)
  modifySelf fun s => { s with denoiser := made.ptr }
  let s ← getSelf
  let _ ← check env (.denoiserSetModel s.denoiser .hdr)
  let q ← check env (.denoiserComputeMemoryResources s.denoiser width height)
  let denoiserReturnSizes := q.sizes
  bufferResize env .intensity sizeofFloat
  bufferResize env .scratch denoiserReturnSizes.recommendedScratchSizeInBytes
  bufferResize env .state denoiserReturnSizes.stateSizeInBytes
  modifySelf fun s => { s with fbWidth := width, fbHeight := height }
  let s ← getSelf
  let _ ← check env (.denoiserSetup s.denoiser s.fbWidth s.fbHeight
    s.denoiserState.d_pointer s.denoiserState.size
    s.denoiserScratch.d_pointer s.denoiserScratch.size)
  pure ()

/-- The member function `DenoiserOptix::bindBuffers` (lines 46-75). -/
def bindBuffers (env : Env) (window : PTWindow) : Exec Unit := do
  let width := window.texWidth
  let height := window.texHeight
  create env width height window.pbo .color .none
  create env width height window.normalPBO .normal .readOnly
  create env width height window.albedoPBO .albedo .readOnly
  let _ ← issue env (.glBindBuffer 0)
  setupDenoiser env width height

/-- The member function `DenoiserOptix::resizeBuffers` (lines 78-83). -/
def resizeBuffers (env : Env) (window : PTWindow) : Exec Unit := do
  modifySelf fun s => { s with fbWidth := window.texWidth }
  modifySelf fun s => { s with fbHeight := window.texHeight }
  bindBuffers env window

/-- The lambda `mapBuffer` of `denoise` (lines 93-102). -/
def mapBuffer (env : Env) (member : Channel) : Exec Nat := do
  let s ← getSelf
  let _ ← check env (.graphicsMapResources member (s.handle member))
  let got ← check env (.graphicsResourceGetMappedPointer (s.handle member))
  pure got.ptr

/-- The lambda `unmapBuffer` of `denoise` (lines 104-107). -/
def unmapBuffer (env : Env) (member : Channel) : Exec Unit := do
  let s ← getSelf
  let _ ← check env (.graphicsUnmapResources member (s.handle member))
  pure ()

/-- The image descriptor filled in by the loop body of `denoise` (lines 118-123) and, with
the same right-hand sides, for `outputLayer` (lines 127-132). -/
def layerOf (s : DenoiserOptix) (data : Nat) : OptixImage2D :=
  { data := data
    width := s.fbWidth
    height := s.fbHeight
    rowStrideInBytes := rowStride s.fbWidth
    pixelStrideInBytes := sizeofFloat4
    format := .float4 }

/-- The member function `DenoiserOptix::denoise` (lines 86-159). -/
def denoise (env : Env) : Exec Unit := do
  let s ← getSelf
  let denoiserParams : OptixDenoiserParams :=
    { denoiseAlpha := 0
      hdrIntensity := s.denoiserIntensity.d_pointer
      blendFactor := s.denoiseBlend }
  let color ← mapBuffer env .color
  let albedo ← mapBuffer env .albedo
  let normal ← mapBuffer env .normal
  let ptrs : List Nat := [color, albedo, normal]
  let inputLayer : List OptixImage2D := ptrs.map (layerOf s)
  let outputLayer : OptixImage2D := layerOf s color
  let _ ← check env (.denoiserComputeIntensity s.denoiser (inputLayer.getD 0 (layerOf s 0))
    s.denoiserIntensity.d_pointer s.denoiserScratch.d_pointer s.denoiserScratch.size)
  let _ ← check env (.denoiserInvoke s.denoiser denoiserParams
    s.denoiserState.d_pointer s.denoiserState.size
    inputLayer 2 0 0 outputLayer
    s.denoiserScratch.d_pointer s.denoiserScratch.size)
  unmapBuffer env .color
  unmapBuffer env .albedo
  unmapBuffer env .normal
  let _ ← check env .deviceSynchronize
  pure ()

/-- The member function `DenoiserOptix::setBlend` (lines 161-164). -/
def setBlend (val : F32) : Exec Unit :=
  modifySelf fun s => { s with denoiseBlend := stdMax F32.zero (stdMin val F32.one) }

/-! ## Observations on runs -/

/-- The object at the end of a run, whether the run returned or ended early. -/
def Res.final {α : Type} : Res α → DenoiserOptix
  | .ok _ s => s
  | .fail s => s

/-- Whether the run returned normally. -/
def Res.isOk {α : Type} : Res α → Bool
  | .ok _ _ => true
  | .fail _ => false

/-- The library calls logged between two points of a run. -/
def newEvents (before after : DenoiserOptix) : List Event :=
  after.trace.drop before.trace.length

/-- Modelled from the spec: the object after construction, before any buffer is bound
(state `UNINITIALIZED` of spec 4.2; the class declaration with the member initialisers is
not among the sources): no denoiser instance, no handles, empty buffers, nothing logged. -/
def fresh : DenoiserOptix :=
  { optixContext := 1
    handleColor := 0
    handleNormal := 0
    handleAlbedo := 0
    denoiser := 0
    denoiserIntensity := ⟨0, 0⟩
    denoiserScratch := ⟨0, 0⟩
    denoiserState := ⟨0, 0⟩
    fbWidth := 0
    fbHeight := 0
    denoiseBlend := F32.zero
    trace := []
    cerr := [] }

/-- An environment in which every library call succeeds; the `k`-th call returns the
pointer `100 + k`, the byte count `n` and the sizes `sz`. -/
def envAllOk (n : Nat) (sz : OptixDenoiserSizes) : Env := fun k =>
  { ok := true, ptr := 100 + k, numBytes := n, sizes := sz }

/-- The environment `e` with the `k`-th library call failing. -/
def failAt (e : Env) (k : Nat) : Env := fun i =>
  if i = k then { e i with ok := false } else e i

/-- The log entries written when the calls `cs` are issued one after the other, each one
tested, starting at position `n` of the run: logging stops after the first call that
fails. -/
def checkedRun (env : Env) (n : Nat) : List Call → List Event
  | [] => []
  | c :: cs => ⟨c, env n⟩ :: (if (env n).ok then checkedRun env (n + 1) cs else [])

/-- The log entries of the calls `cs` when all of them are issued, starting at position `n`
of the run. -/
def eventsFrom (env : Env) (n : Nat) : List Call → List Event
  | [] => []
  | c :: cs => ⟨c, env n⟩ :: eventsFrom env (n + 1) cs

/-- The library calls of a complete run of the lambda `create`, `h` being the handle that
the registration returned. -/
def createCalls (pbo : Nat) (dst : Channel) (flags : RegisterFlags) (h : Nat) : List Call :=
  [ .glBindBuffer pbo,
    .graphicsGLRegisterBuffer dst pbo flags,
    .graphicsMapResources dst h,
    .graphicsResourceGetMappedPointer h,
    .graphicsUnmapResources dst h ]

/-- The position in the log of the `optixDenoiserCreate` call of a `setupDenoiser` started
on `s`: one later when an instance has to be destroyed first. -/
def createIndex (s : DenoiserOptix) : Nat :=
  if s.denoiser ≠ 0 then s.trace.length + 1 else s.trace.length

/-- The library calls of a complete `setupDenoiser(width, height)` started on `s`. -/
def setupCalls (env : Env) (width height : Nat) (s : DenoiserOptix) : List Call :=
  let k := createIndex s
  (if s.denoiser ≠ 0 then [.denoiserDestroy s.denoiser] else []) ++
  [ .denoiserCreate s.optixContext { inputKind := .rgbAlbedo, pixelFormat := .float4 },
    .denoiserSetModel (env k).ptr .hdr,
    .denoiserComputeMemoryResources (env k).ptr width height,
    .bufferResize .intensity sizeofFloat,
    .bufferResize .scratch (env (k + 2)).sizes.recommendedScratchSizeInBytes,
    .bufferResize .state (env (k + 2)).sizes.stateSizeInBytes,
    .denoiserSetup (env k).ptr width height
      (env (k + 5)).ptr (env (k + 2)).sizes.stateSizeInBytes
      (env (k + 4)).ptr (env (k + 2)).sizes.recommendedScratchSizeInBytes ]

/-- The object after a complete `setupDenoiser(width, height)` started on `s`. -/
def setupDone (env : Env) (width height : Nat) (s : DenoiserOptix) : DenoiserOptix :=
  let k := createIndex s
  { s with
    denoiser := (env k).ptr
    denoiserIntensity := ⟨(env (k + 3)).ptr, sizeofFloat⟩
    denoiserScratch := ⟨(env (k + 4)).ptr, (env (k + 2)).sizes.recommendedScratchSizeInBytes⟩
    denoiserState := ⟨(env (k + 5)).ptr, (env (k + 2)).sizes.stateSizeInBytes⟩
    fbWidth := width
    fbHeight := height
    trace := s.trace ++ eventsFrom env s.trace.length (setupCalls env width height s) }

/-- The object after a complete run of the lambda `create` started on `s`: the handle
member holds the new registration, the five calls are logged, and `std::cerr` has received
a line if the reported byte count is not the expected one. -/
def createDone (env : Env) (width height : Nat) (pbo : Nat) (dst : Channel)
    (flags : RegisterFlags) (s : DenoiserOptix) : DenoiserOptix :=
  { s.setHandle dst (env (s.trace.length + 1)).ptr with
    trace := s.trace ++
      eventsFrom env s.trace.length (createCalls pbo dst flags (env (s.trace.length + 1)).ptr)
    cerr :=
      if (env (s.trace.length + 3)).numBytes ≠ expectedBytes width height then
        s.cerr ++ [((env (s.trace.length + 3)).numBytes, expectedBytes width height)]
      else s.cerr }

/-- The four tested calls of a run of `create` started on `s` all succeed. -/
def createOk (env : Env) (s : DenoiserOptix) : Prop :=
  (env (s.trace.length + 1)).ok = true ∧ (env (s.trace.length + 2)).ok = true ∧
  (env (s.trace.length + 3)).ok = true ∧ (env (s.trace.length + 4)).ok = true

instance (env : Env) (s : DenoiserOptix) : Decidable (createOk env s) := by
  unfold createOk
  infer_instance

/-- The object in `bindBuffers(window)` started on `s` when `setupDenoiser` is reached:
the three buffers are registered and the pixel-pack binding is reset. -/
def bindRegistered (env : Env) (window : PTWindow) (s : DenoiserOptix) : DenoiserOptix :=
  ((createDone env window.texWidth window.texHeight window.albedoPBO .albedo .readOnly
    (createDone env window.texWidth window.texHeight window.normalPBO .normal .readOnly
      (createDone env window.texWidth window.texHeight window.pbo .color .none s))).logged
        env (.glBindBuffer 0))

/-- The object after a complete `bindBuffers(window)` started on `s`. -/
def bindDone (env : Env) (window : PTWindow) (s : DenoiserOptix) : DenoiserOptix :=
  setupDone env window.texWidth window.texHeight (bindRegistered env window s)

/-- All tested calls of a `bindBuffers(window)` started on `s` succeed. -/
def bindOk (env : Env) (window : PTWindow) (s : DenoiserOptix) : Prop :=
  createOk env s ∧
  createOk env (createDone env window.texWidth window.texHeight window.pbo .color .none s) ∧
  createOk env (createDone env window.texWidth window.texHeight window.normalPBO .normal .readOnly
    (createDone env window.texWidth window.texHeight window.pbo .color .none s)) ∧
  (∀ e ∈ eventsFrom env (bindRegistered env window s).trace.length
      (setupCalls env window.texWidth window.texHeight (bindRegistered env window s)),
    e.reply.ok = true)

instance (env : Env) (window : PTWindow) (s : DenoiserOptix) :
    Decidable (bindOk env window s) := by
  unfold bindOk
  infer_instance

/-- Issue the calls `cs` one after the other, each one tested. -/
def runChecks (env : Env) : List Call → Exec Unit
  | [] => pure ()
  | c :: cs => fun s => (check env c s).andThen fun _ => runChecks env cs

/-- The library calls of a complete `denoise` started on the object `s`, in program order;
the device pointers are the ones the environment returns for the three mappings. -/
def denoiseCalls (env : Env) (s : DenoiserOptix) : List Call :=
  let color := (env (s.trace.length + 1)).ptr
  let albedo := (env (s.trace.length + 3)).ptr
  let normal := (env (s.trace.length + 5)).ptr
  [ .graphicsMapResources .color s.handleColor,
    .graphicsResourceGetMappedPointer s.handleColor,
    .graphicsMapResources .albedo s.handleAlbedo,
    .graphicsResourceGetMappedPointer s.handleAlbedo,
    .graphicsMapResources .normal s.handleNormal,
    .graphicsResourceGetMappedPointer s.handleNormal,
    .denoiserComputeIntensity s.denoiser (layerOf s color)
      s.denoiserIntensity.d_ptr s.denoiserScratch.d_ptr s.denoiserScratch.sizeInBytes,
    .denoiserInvoke s.denoiser
      { denoiseAlpha := 0, hdrIntensity := s.denoiserIntensity.d_ptr,
        blendFactor := s.denoiseBlend }
      s.denoiserState.d_ptr s.denoiserState.sizeInBytes
      [layerOf s color, layerOf s albedo, layerOf s normal] 2 0 0 (layerOf s color)
      s.denoiserScratch.d_ptr s.denoiserScratch.sizeInBytes,
    .graphicsUnmapResources .color s.handleColor,
    .graphicsUnmapResources .albedo s.handleAlbedo,
    .graphicsUnmapResources .normal s.handleNormal,
    .deviceSynchronize ]

/-- Whether a call is the `cudaGraphicsMapResources` on the handle member of channel `ch`. -/
def Call.maps (ch : Channel) : Call → Bool
  | .graphicsMapResources m _ => decide (m = ch)
  | _ => false

/-- Whether a call is the `cudaGraphicsUnmapResources` on the handle member of channel `ch`. -/
def Call.unmaps (ch : Channel) : Call → Bool
  | .graphicsUnmapResources m _ => decide (m = ch)
  | _ => false

/-- Whether a log entry is a successful mapping of the buffer of channel `ch`. -/
def Event.acquires (ch : Channel) (e : Event) : Bool := e.call.maps ch && e.reply.ok

/-- Whether a log entry is a successful unmapping of the buffer of channel `ch`. -/
def Event.releases (ch : Channel) (e : Event) : Bool := e.call.unmaps ch && e.reply.ok

/-- The calls of a log that succeeded, in order. -/
def okCalls (es : List Event) : List Call :=
  (es.filter fun e => e.reply.ok).map Event.call

/-- The number of mappings of channel `ch` acquired in a log and not released in it. -/
def outstanding (ch : Channel) (es : List Event) : Int :=
  (es.countP (Event.acquires ch) : Int) - (es.countP (Event.releases ch) : Int)

/-- Whether a call is one of the two filter calls of `denoise`, `optixDenoiserComputeIntensity`
or `optixDenoiserInvoke`. -/
def Call.isFilterCall : Call → Bool
  | .denoiserComputeIntensity .. => true
  | .denoiserInvoke .. => true
  | _ => false

/-- Whether a call is `optixDenoiserInvoke`. -/
def Call.isInvoke : Call → Bool
  | .denoiserInvoke .. => true
  | _ => false

/-- The parameter block handed to `optixDenoiserInvoke`, for such a call. -/
def Call.invokeParams : Call → Option OptixDenoiserParams
  | .denoiserInvoke _ p _ _ _ _ _ _ _ _ _ => some p
  | _ => none

/-- The device address `optixDenoiserComputeIntensity` writes the intensity to, for such a
call. -/
def Call.intensityTarget : Call → Option Nat
  | .denoiserComputeIntensity _ _ out _ _ => some out
  | _ => none

/-- A window of 4 by 4 texels with the buffer names 1, 2 and 3. -/
def smallWindow : PTWindow :=
  { texWidth := 4, texHeight := 4, pbo := 1, normalPBO := 2, albedoPBO := 3 }

/-- The byte count and the sizes reported in the sample runs. -/
def sampleEnv : Env := envAllOk 256 ⟨64, 32, 48⟩

/-- The object after a successful `bindBuffers` on `smallWindow`, all 23 library calls
having succeeded. -/
def readyObject : DenoiserOptix := (bindBuffers sampleEnv smallWindow fresh).final

/-! ## The public interface -/

/-- A call of one of the four public member functions (`setupDenoiser` is reached only
through `bindBuffers` and `resizeBuffers`). -/
inductive ApiCall where
  | bindBuffers (window : PTWindow)
  | resizeBuffers (window : PTWindow)
  | denoise
  | setBlend (val : F32)
deriving DecidableEq

/-- Run one public member function. -/
def ApiCall.run (env : Env) : ApiCall → Exec Unit
  | .bindBuffers window => Fluctus.bindBuffers env window
  | .resizeBuffers window => Fluctus.resizeBuffers env window
  | .denoise => Fluctus.denoise env
  | .setBlend val => Fluctus.setBlend val

/-- Run a sequence of public member functions, as long as none of them ends early. -/
def runApi (env : Env) : List ApiCall → Exec Unit
  | [] => pure ()
  | a :: rest => fun s => (a.run env s).andThen fun _ => runApi env rest

/-- Whether a public call reaches `setupDenoiser`. -/
def ApiCall.isSetup : ApiCall → Bool
  | .bindBuffers _ => true
  | .resizeBuffers _ => true
  | _ => false

/-- Whether a public call is `setBlend`. -/
def ApiCall.isSetBlend : ApiCall → Bool
  | .setBlend _ => true
  | _ => false

/-! ## Interop registrations -/

/-- The effect of one logged call on the registrations that are alive, each kept with the
member it was created for: a successful `cudaGraphicsGLRegisterBuffer` adds one, a
successful `cudaGraphicsUnregisterResource` removes the one it names. -/
def regStep (live : List (Channel × Nat)) (e : Event) : List (Channel × Nat) :=
  match e.call with
  | .graphicsGLRegisterBuffer dst _ _ =>
    if e.reply.ok then live ++ [(dst, e.reply.ptr)] else live
  | .graphicsUnregisterResource res =>
    if e.reply.ok then live.eraseP (fun p => p.2 == res) else live
  | _ => live

/-- The interop registrations created in a log and not released in it. -/
def liveRegistrations (es : List Event) : List (Channel × Nat) :=
  es.foldl regStep []

/-- The live registrations of one channel. -/
def liveFor (ch : Channel) (es : List Event) : List Nat :=
  ((liveRegistrations es).filter fun p => p.1 == ch).map Prod.snd

/-- Whether a call is `cudaGraphicsUnregisterResource`. -/
def Call.isUnregister : Call → Bool
  | .graphicsUnregisterResource _ => true
  | _ => false

/-! ## Filter-engine instances -/

/-- The denoiser instance a call operates on. -/
def Call.engine : Call → Option Nat
  | .denoiserDestroy d => some d
  | .denoiserSetModel d _ => some d
  | .denoiserComputeMemoryResources d _ _ => some d
  | .denoiserSetup d _ _ _ _ _ _ => some d
  | .denoiserComputeIntensity d _ _ _ _ => some d
  | .denoiserInvoke d _ _ _ _ _ _ _ _ _ _ => some d
  | _ => none

/-- The bookkeeping of filter-engine instances along a log: the instances that are alive,
the destroyed ones whose handle has not been handed out again, how many were created and
destroyed, whether an instance was ever created while another one was alive, and whether
a call was ever given a destroyed instance. -/
structure Engines where
  live : List Nat
  dead : List Nat
  created : Nat
  destroyed : Nat
  overlapped : Bool
  misused : Bool
deriving DecidableEq

/-- The bookkeeping after one more logged call. -/
def Engines.step (g : Engines) (e : Event) : Engines :=
  let g1 : Engines :=
    match e.call.engine with
    | some d => if d ∈ g.dead then { g with misused := true } else g
    | none => g
  match e.call with
  | .denoiserCreate _ _ =>
    if e.reply.ok then
      { g1 with
        live := g1.live ++ [e.reply.ptr]
        dead := g1.dead.filter fun d => d ≠ e.reply.ptr
        created := g1.created + 1
        overlapped := g1.overlapped || !g1.live.isEmpty }
    else g1
  | .denoiserDestroy d =>
    if e.reply.ok then
      { g1 with live := g1.live.erase d, dead := d :: g1.dead, destroyed := g1.destroyed + 1 }
    else g1
  | _ => g1

/-- The bookkeeping of filter-engine instances of a whole log. -/
def engines (es : List Event) : Engines :=
  es.foldl Engines.step ⟨[], [], 0, 0, false, false⟩

/-- The bookkeeping is in order for an object whose member `denoiser` is `d`: no misuse and
no overlap so far, the live instances are exactly the one held by the object (none if the
member is null), that instance is not a destroyed one, every instance created was either
destroyed or is alive, and the member is non-null once an instance has been created. -/
def EnginesOk (g : Engines) (d : Nat) : Prop :=
  g.misused = false ∧ g.overlapped = false ∧
  g.live = (if d = 0 then [] else [d]) ∧ d ∉ g.dead ∧
  g.created = g.destroyed + g.live.length ∧
  (g.created = 0 ∨ d ≠ 0)

instance (g : Engines) (d : Nat) : Decidable (EnginesOk g d) := by
  unfold EnginesOk
  infer_instance

/-- The instance handed out by a log entry, if it is a successful `optixDenoiserCreate`. -/
def Event.createdEngine (e : Event) : Option Nat :=
  match e.call with
  | .denoiserCreate _ _ => if e.reply.ok then some e.reply.ptr else none
  | _ => none

/-- Whether a call creates or destroys a filter-engine instance. -/
def Call.isLifecycle : Call → Bool
  | .denoiserCreate _ _ => true
  | .denoiserDestroy _ => true
  | _ => false

/-! ## Sizes -/

/-- The dimensions asked about by a memory-requirements query. -/
def Call.memoryQuery : Call → Option (Nat × Nat)
  | .denoiserComputeMemoryResources _ w h => some (w, h)
  | _ => none

/-- What a log entry tells about sizes, if it is a successful memory-requirements query:
the dimensions asked about, the scratch size and the state size that were returned. -/
def Event.sizing (e : Event) : Option ((Nat × Nat) × Nat × Nat) :=
  if e.reply.ok then
    e.call.memoryQuery.map fun wh =>
      (wh, e.reply.sizes.recommendedScratchSizeInBytes, e.reply.sizes.stateSizeInBytes)
  else none

/-- The last successful memory-requirements query of a log. -/
def lastQuery (es : List Event) : Option ((Nat × Nat) × Nat × Nat) :=
  (es.filterMap Event.sizing).getLast?

/-- The scratch size passed by a filter call. -/
def Call.scratchSize : Call → Option Nat
  | .denoiserComputeIntensity _ _ _ _ n => some n
  | .denoiserInvoke _ _ _ _ _ _ _ _ _ _ n => some n
  | _ => none

/-- The state size passed by `optixDenoiserInvoke`. -/
def Call.stateSize : Call → Option Nat
  | .denoiserInvoke _ _ _ n _ _ _ _ _ _ _ => some n
  | _ => none

/-- The image descriptors passed by a filter call. -/
def Call.images : Call → List OptixImage2D
  | .denoiserComputeIntensity _ img _ _ _ => [img]
  | .denoiserInvoke _ _ _ _ layers _ _ _ out _ _ => layers ++ [out]
  | _ => []

/-- The object's buffers are sized by the last successful memory-requirements query of the
run, and that query was made for the stored frame dimensions. -/
def Sized (s : DenoiserOptix) : Prop :=
  lastQuery s.trace =
    some ((s.fbWidth, s.fbHeight), s.denoiserScratch.size, s.denoiserState.size)

/-- The object after a complete `denoise` started on `s`: only the log has grown. -/
def denoiseDone (env : Env) (s : DenoiserOptix) : DenoiserOptix :=
  { s with trace := s.trace ++ eventsFrom env s.trace.length (denoiseCalls env s) }

/-- The object after a complete public call started on `s`. -/
def ApiCall.done (env : Env) : ApiCall → DenoiserOptix → DenoiserOptix
  | .bindBuffers window, s => bindDone env window s
  | .resizeBuffers window, s => bindDone env window s
  | .denoise, s => denoiseDone env s
  | .setBlend val, s => { s with denoiseBlend := stdMax F32.zero (stdMin val F32.one) }

/-- A window of 8 by 6 texels with the buffer names 4, 5 and 6. -/
def largeWindow : PTWindow :=
  { texWidth := 8, texHeight := 6, pbo := 4, normalPBO := 5, albedoPBO := 6 }

/-- A sample session: bind, denoise, resize, change the blend, denoise. -/
def sampleSession : List ApiCall :=
  [.bindBuffers smallWindow, .denoise, .resizeBuffers largeWindow, .setBlend (.fin (1 / 2)),
    .denoise]

/-- Apply a change to the object a run ends with, however it ends. -/
def Res.mapState {α : Type} (g : DenoiserOptix → DenoiserOptix) : Res α → Res α
  | .ok a s => .ok a (g s)
  | .fail s => .fail (g s)

/-- The object with other stored frame dimensions. -/
def DenoiserOptix.withDims (s : DenoiserOptix) (a b : Nat) : DenoiserOptix :=
  { s with fbWidth := a, fbHeight := b }

/-- The first part of `setupDenoiser` (lines 168-183): destroy, create, set the model,
query the sizes, resize the three buffers. -/
def setupAlloc (env : Env) (width height : Nat) : Exec Unit := do
  let s ← getSelf
  (do if s.denoiser ≠ 0 then
        let _ ← check env (.denoiserDestroy s.denoiser))
  let denoiserOptions : OptixDenoiserOptions :=
    { inputKind := .rgbAlbedo, pixelFormat := .float4 }
  let made ← check env (.denoiserCreate s.optixContext denoiserOptions)
  modifySelf fun s => { s with denoiser := made.ptr }
  let s ← getSelf
  let _ ← check env (.denoiserSetModel s.denoiser .hdr)
  let q ← check env (.denoiserComputeMemoryResources s.denoiser width height)
  let denoiserReturnSizes := q.sizes
  bufferResize env .intensity sizeofFloat
  bufferResize env .scratch denoiserReturnSizes.recommendedScratchSizeInBytes
  bufferResize env .state denoiserReturnSizes.stateSizeInBytes

/-- The second part of `setupDenoiser` (lines 185-193): store the frame dimensions and set
the denoiser up. -/
def setupFinish (env : Env) (width height : Nat) : Exec Unit := do
  modifySelf fun s => { s with fbWidth := width, fbHeight := height }
  let s ← getSelf
  let _ ← check env (.denoiserSetup s.denoiser s.fbWidth s.fbHeight
    s.denoiserState.d_pointer s.denoiserState.size
    s.denoiserScratch.d_pointer s.denoiserScratch.size)
  pure ()

/-- The object with other scratch and state buffers. -/
def DenoiserOptix.withBuffers (s : DenoiserOptix) (scratch state : CUDABuffer) :
    DenoiserOptix :=
  { s with denoiserScratch := scratch, denoiserState := state }

/-- The part of `setupDenoiser` before the scratch and state buffers are touched (lines
168-181): destroy, create, set the model, query the sizes, resize the intensity buffer.
It yields the sizes the query returned. -/
def setupHead (env : Env) (width height : Nat) : Exec OptixDenoiserSizes := do
  let s ← getSelf
  (do if s.denoiser ≠ 0 then
        let _ ← check env (.denoiserDestroy s.denoiser))
  let denoiserOptions : OptixDenoiserOptions :=
    { inputKind := .rgbAlbedo, pixelFormat := .float4 }
  let made ← check env (.denoiserCreate s.optixContext denoiserOptions)
  modifySelf fun s => { s with denoiser := made.ptr }
  let s ← getSelf
  let _ ← check env (.denoiserSetModel s.denoiser .hdr)
  let q ← check env (.denoiserComputeMemoryResources s.denoiser width height)
  let denoiserReturnSizes := q.sizes
  bufferResize env .intensity sizeofFloat
  pure denoiserReturnSizes

/-- Lines 182-183 of `setupDenoiser`: resize the scratch buffer, then the state buffer. -/
def setupTail (env : Env) (denoiserReturnSizes : OptixDenoiserSizes) : Exec Unit := do
  bufferResize env .scratch denoiserReturnSizes.recommendedScratchSizeInBytes
  bufferResize env .state denoiserReturnSizes.stateSizeInBytes

/-- Whether a call is the reallocation of the buffer `buf`. -/
def Call.resizes (buf : BufferId) : Call → Bool
  | .bufferResize b _ => decide (b = buf)
  | _ => false

/-- The log of the object ends with a successful reallocation of the scratch buffer to the
size the buffer has now, followed by a failed reallocation of the state buffer. -/
def stateReallocFailed (t : DenoiserOptix) : Bool :=
  match t.trace.reverse with
  | e2 :: e1 :: _ =>
    decide (e1.call = .bufferResize .scratch t.denoiserScratch.size) && e1.reply.ok &&
      e2.call.resizes .state && !e2.reply.ok
  | _ => false

/-- Two runs of the same member function, the first one started on `s` and the second one
on `s` with other stored frame dimensions `(a, b)`, compare as follows: either they end in
the same way with the same object, or both end early and the objects differ in the stored
frame dimensions only; the first run then still has the dimensions and the state buffer of
`s`, and the scratch buffer of `s` too unless the call that failed is the reallocation of
the state buffer, made after the scratch buffer was resized. -/
def DimsOnly (a b : Nat) (s : DenoiserOptix) (r r2 : Res Unit) : Prop :=
  r2 = r ∨
  (r.isOk = false ∧ (r2 = r.mapState fun t => t.withDims a b) ∧
    r.final.fbWidth = s.fbWidth ∧ r.final.fbHeight = s.fbHeight ∧
    r.final.denoiserState = s.denoiserState ∧
    (r.final.denoiserScratch = s.denoiserScratch ∨ stateReallocFailed r.final = true))

/-- An environment in which every library call succeeds and the sizes returned grow with
the position `k` of the call: state `60 + k`, scratch `40 + k`. -/
def growingEnv : Env := fun k =>
  { ok := true, ptr := 100 + k, numBytes := 256, sizes := ⟨60 + k, 30 + k, 40 + k⟩ }

/-! ## Reported byte counts -/

/-- The environment `env` with the reported byte counts replaced by `f`. -/
def withNumBytes (env : Env) (f : Nat → Nat) : Env := fun k =>
  { env k with numBytes := f k }

/-- A log entry without the byte count of its answer. -/
def Event.forgetBytes (e : Event) : Event :=
  { e with reply := { e.reply with numBytes := 0 } }

/-- The object without what depends on reported byte counts: the lines on `std::cerr`
and the byte counts recorded in the log. -/
def DenoiserOptix.forgetBytes (s : DenoiserOptix) : DenoiserOptix :=
  { s with cerr := [], trace := s.trace.map Event.forgetBytes }

/-- The line written to `std::cerr` for a buffer whose mapping reports `n` bytes where
`expected` bytes are expected: none if they are equal. -/
def mismatchLine (n expected : Nat) : List (Nat × Nat) :=
  if n ≠ expected then [(n, expected)] else []

instance (s : DenoiserOptix) : Decidable (Sized s) := by
  unfold Sized
  infer_instance

instance (a b : Nat) (s : DenoiserOptix) (r r2 : Res Unit) : Decidable (DimsOnly a b s r r2) := by
  unfold DimsOnly
  infer_instance

/-! ## Running member functions symbolically -/

@[simp] theorem andThen_ok {α β : Type} (a : α) (s : DenoiserOptix)
    (f : α → DenoiserOptix → Res β) : (Res.ok a s).andThen f = f a s := rfl

@[simp] theorem andThen_fail {α β : Type} (s : DenoiserOptix)
    (f : α → DenoiserOptix → Res β) : (Res.fail s : Res α).andThen f = .fail s := rfl

@[simp] theorem andThen_ite {α β : Type} (c : Prop) [Decidable c] (x y : Res α)
    (f : α → DenoiserOptix → Res β) :
    (if c then x else y).andThen f = if c then x.andThen f else y.andThen f := by
  split <;> rfl

@[simp] theorem bind_run {α β : Type} (x : Exec α) (f : α → Exec β) (s : DenoiserOptix) :
    (x >>= f) s = (x s).andThen f := rfl

@[simp] theorem pure_run {α : Type} (a : α) (s : DenoiserOptix) :
    (pure a : Exec α) s = .ok a s := rfl

@[simp] theorem getSelf_run (s : DenoiserOptix) : getSelf s = .ok s s := rfl

@[simp] theorem modifySelf_run (f : DenoiserOptix → DenoiserOptix) (s : DenoiserOptix) :
    modifySelf f s = .ok () (f s) := rfl

@[simp] theorem issue_run (env : Env) (c : Call) (s : DenoiserOptix) :
    issue env c s = .ok (env s.trace.length) (s.logged env c) := rfl

@[simp] theorem check_run (env : Env) (c : Call) (s : DenoiserOptix) :
    check env c s = if (env s.trace.length).ok = true
      then .ok (env s.trace.length) (s.logged env c) else .fail (s.logged env c) := rfl

@[simp] theorem when_writeCerr_run (c : Prop) [Decidable c] (line : Nat × Nat)
    (s : DenoiserOptix) :
    (if c then writeCerr line else pure PUnit.unit : Exec PUnit) s =
      .ok () { s with cerr := if c then s.cerr ++ [line] else s.cerr } := by
  split <;> rfl

@[simp] theorem ite_run {α : Type} (c : Prop) [Decidable c] (x y : Exec α)
    (s : DenoiserOptix) : (if c then x else y : Exec α) s = if c then x s else y s := by
  split <;> rfl

@[simp] theorem ite_fail_eq_ok {α : Type} (c : Prop) [Decidable c] (x : Res α)
    (t s2 : DenoiserOptix) (a : α) :
    (if c then x else .fail t) = .ok a s2 ↔ c ∧ x = .ok a s2 := by
  split <;> simp [*]

@[simp] theorem ok_eq_ok {α : Type} (a b : α) (s t : DenoiserOptix) :
    (Res.ok a s = Res.ok b t) ↔ a = b ∧ s = t := by
  constructor
  · intro h; cases h; exact ⟨rfl, rfl⟩
  · rintro ⟨rfl, rfl⟩; rfl

@[simp] theorem final_ok {α : Type} (a : α) (s : DenoiserOptix) : (Res.ok a s).final = s := rfl

@[simp] theorem final_fail {α : Type} (s : DenoiserOptix) :
    (Res.fail s : Res α).final = s := rfl

@[simp] theorem isOk_ok {α : Type} (a : α) (s : DenoiserOptix) : (Res.ok a s).isOk = true := rfl

@[simp] theorem isOk_fail {α : Type} (s : DenoiserOptix) :
    (Res.fail s : Res α).isOk = false := rfl

theorem ok_of_isOk (r : Res Unit) (h : r.isOk = true) : r = .ok () r.final := by
  cases r with
  | ok a s => rfl
  | fail s => cases h

@[simp] theorem newEvents_append (s s2 : DenoiserOptix) (es : List Event)
    (h : s2.trace = s.trace ++ es) : newEvents s s2 = es := by
  simp [newEvents, h]

/-! ## `setBlend` -/

@[simp] theorem lt_fin_fin (a b : ℚ) : F32.lt (.fin a) (.fin b) = decide (a < b) := rfl

@[simp] theorem le_fin_fin (a b : ℚ) : F32.le (.fin a) (.fin b) = decide (a ≤ b) := rfl

theorem stdMax_stdMin_fin (q : ℚ) :
    stdMax F32.zero (stdMin (.fin q) F32.one) =
      if q < 0 then F32.zero else if 1 < q then F32.one else .fin q := by
  unfold stdMax stdMin F32.zero F32.one
  by_cases h1 : (1 : ℚ) < q
  · have h0 : ¬ q < 0 := by linarith
    simp [h1, h0]
  · by_cases h0 : q < 0
    · have hp : ¬ (0 : ℚ) < q := by linarith
      simp [h1, h0, hp]
    · by_cases hp : (0 : ℚ) < q
      · simp [h1, h0, hp]
      · have hq : q = 0 := le_antisymm (not_lt.mp hp) (not_lt.mp h0)
        subst hq
        have h10 : ¬ (1 : ℚ) < 0 := by norm_num
        simp [h10]

theorem setBlend_final (v : F32) (s : DenoiserOptix) :
    (setBlend v s).final = { s with denoiseBlend := stdMax F32.zero (stdMin v F32.one) } := rfl

theorem clamp_cases (v : F32) :
    (F32.lt v F32.zero = true → stdMax F32.zero (stdMin v F32.one) = F32.zero) ∧
    (F32.lt F32.one v = true → stdMax F32.zero (stdMin v F32.one) = F32.one) ∧
    (F32.le F32.zero v = true → F32.le v F32.one = true →
      stdMax F32.zero (stdMin v F32.one) = v) ∧
    F32.le F32.zero (stdMax F32.zero (stdMin v F32.one)) = true ∧
    F32.le (stdMax F32.zero (stdMin v F32.one)) F32.one = true := by
  cases v with
  | nan => simp [stdMax, stdMin, F32.lt, F32.le, F32.zero, F32.one]
  | negInf => simp [stdMax, stdMin, F32.lt, F32.le, F32.zero, F32.one]
  | posInf => simp [stdMax, stdMin, F32.lt, F32.le, F32.zero, F32.one]
  | fin q =>
    rw [stdMax_stdMin_fin]
    by_cases h0 : q < 0
    · have h1 : ¬ (1 : ℚ) < q := by linarith
      have h2 : ¬ (0 : ℚ) ≤ q := by linarith
      simp [F32.zero, F32.one, h0, h1, h2]
    · by_cases h1 : (1 : ℚ) < q
      · have h2 : ¬ q ≤ 1 := by linarith
        simp [F32.zero, F32.one, h0, h1, h2]
      · have h2 : q ≤ 1 := not_lt.mp h1
        have h3 : (0 : ℚ) ≤ q := not_lt.mp h0
        simp [F32.zero, F32.one, h0, h1, h2, h3]

theorem clamp_idem (v : F32) :
    stdMax F32.zero (stdMin (stdMax F32.zero (stdMin v F32.one)) F32.one) =
      stdMax F32.zero (stdMin v F32.one) := by
  obtain ⟨-, -, h, h0, h1⟩ := clamp_cases (stdMax F32.zero (stdMin v F32.one))
  have := clamp_cases v
  exact h this.2.2.2.1 this.2.2.2.2

/-! ## `denoise` -/

theorem runChecks_final (env : Env) (cs : List Call) (s : DenoiserOptix) :
    (runChecks env cs s).final =
      { s with trace := s.trace ++ checkedRun env s.trace.length cs } := by
  induction cs generalizing s with
  | nil => simp [runChecks, checkedRun]
  | cons c cs ih =>
    simp only [runChecks, check_run, andThen_ite, andThen_ok, andThen_fail, checkedRun]
    by_cases h : (env s.trace.length).ok = true
    · simp only [h, if_true, ih]
      simp [DenoiserOptix.logged]
    · simp [h, DenoiserOptix.logged]

theorem runChecks_isOk (env : Env) (cs : List Call) (s : DenoiserOptix) :
    (runChecks env cs s).isOk =
      (checkedRun env s.trace.length cs).all fun e => e.reply.ok := by
  induction cs generalizing s with
  | nil => simp [runChecks, checkedRun]
  | cons c cs ih =>
    simp only [runChecks, check_run, andThen_ite, andThen_ok, andThen_fail, checkedRun]
    by_cases h : (env s.trace.length).ok = true
    · simp only [h, if_true, ih]
      simp [DenoiserOptix.logged, h]
    · simp [h]

theorem denoise_eq_runChecks (env : Env) (s : DenoiserOptix) :
    denoise env s = runChecks env (denoiseCalls env s) s := by
  simp only [denoise, mapBuffer, unmapBuffer, bind_run, getSelf_run, andThen_ok, check_run,
    andThen_ite, andThen_fail, pure_run, denoiseCalls, runChecks]
  simp [DenoiserOptix.logged, DenoiserOptix.handle, CUDABuffer.d_pointer, CUDABuffer.size]

theorem checkedRun_call_mem (env : Env) (n : Nat) (cs : List Call) (e : Event)
    (h : e ∈ checkedRun env n cs) : e.call ∈ cs := by
  induction cs generalizing n with
  | nil => simp [checkedRun] at h
  | cons c cs ih =>
    simp only [checkedRun, List.mem_cons] at h
    rcases h with rfl | h
    · simp
    · split at h
      · exact List.mem_cons_of_mem _ (ih _ h)
      · simp at h

theorem checkedRun_calls_prefix (env : Env) (n : Nat) (cs : List Call) :
    (checkedRun env n cs).map Event.call <+: cs := by
  induction cs generalizing n with
  | nil => simp [checkedRun]
  | cons c cs ih =>
    simp only [checkedRun, List.map_cons]
    split
    · exact (List.prefix_cons_inj c).mpr (ih _)
    · simp

theorem checkedRun_all_ok (env : Env) (n : Nat) (cs : List Call)
    (h : ((checkedRun env n cs).all fun e => e.reply.ok) = true) :
    (checkedRun env n cs).map Event.call = cs := by
  induction cs generalizing n with
  | nil => simp [checkedRun]
  | cons c cs ih =>
    simp only [checkedRun, List.all_cons, Bool.and_eq_true] at h
    simp only [checkedRun, h.1, if_true, List.map_cons] at h ⊢
    rw [ih _ h.2]

theorem denoise_newEvents (env : Env) (s : DenoiserOptix) :
    newEvents s (denoise env s).final =
      checkedRun env s.trace.length (denoiseCalls env s) := by
  rw [denoise_eq_runChecks, runChecks_final]
  simp [newEvents]

theorem denoise_isOk (env : Env) (s : DenoiserOptix) :
    (denoise env s).isOk =
      (checkedRun env s.trace.length (denoiseCalls env s)).all fun e => e.reply.ok := by
  rw [denoise_eq_runChecks, runChecks_isOk]

theorem denoise_keeps (env : Env) (s : DenoiserOptix) :
    (denoise env s).final = { s with trace := (denoise env s).final.trace } := by
  rw [denoise_eq_runChecks, runChecks_final]

/-- C5: on every `denoise` that returns normally the library calls are, in this order: map
color, map albedo, map normal (each a `cudaGraphicsMapResources` followed by the pointer
query), `optixDenoiserComputeIntensity`, `optixDenoiserInvoke`, unmap color, unmap albedo,
unmap normal, device synchronisation.  On a run that ends early the calls are an initial
segment of that sequence, so the order is the same in every run. -/
theorem denoise_call_sequence (env : Env) (s : DenoiserOptix) :
    ((denoise env s).isOk = true →
      (newEvents s (denoise env s).final).map Event.call =
        [ .graphicsMapResources .color s.handleColor,
          .graphicsResourceGetMappedPointer s.handleColor,
          .graphicsMapResources .albedo s.handleAlbedo,
          .graphicsResourceGetMappedPointer s.handleAlbedo,
          .graphicsMapResources .normal s.handleNormal,
          .graphicsResourceGetMappedPointer s.handleNormal,
          .denoiserComputeIntensity s.denoiser (layerOf s (env (s.trace.length + 1)).ptr)
            s.denoiserIntensity.d_ptr s.denoiserScratch.d_ptr s.denoiserScratch.sizeInBytes,
          .denoiserInvoke s.denoiser
            { denoiseAlpha := 0, hdrIntensity := s.denoiserIntensity.d_ptr,
              blendFactor := s.denoiseBlend }
            s.denoiserState.d_ptr s.denoiserState.sizeInBytes
            [ layerOf s (env (s.trace.length + 1)).ptr,
              layerOf s (env (s.trace.length + 3)).ptr,
              layerOf s (env (s.trace.length + 5)).ptr ] 2 0 0
            (layerOf s (env (s.trace.length + 1)).ptr)
            s.denoiserScratch.d_ptr s.denoiserScratch.sizeInBytes,
          .graphicsUnmapResources .color s.handleColor,
          .graphicsUnmapResources .albedo s.handleAlbedo,
          .graphicsUnmapResources .normal s.handleNormal,
          .deviceSynchronize ]) ∧
    (newEvents s (denoise env s).final).map Event.call <+: denoiseCalls env s ∧
    ((denoise env s).isOk = true → ∀ e ∈ newEvents s (denoise env s).final, e.reply.ok = true) := by
  rw [denoise_newEvents, denoise_isOk]
  refine ⟨fun h => ?_, checkedRun_calls_prefix _ _ _, fun h e he => ?_⟩
  · rw [checkedRun_all_ok _ _ _ h]
    rfl
  · exact List.all_eq_true.mp h e he

/-- A sample run: from the object left by a successful `bindBuffers`, with every
library call succeeding, `denoise` returns and has issued its twelve calls. -/
theorem denoise_call_sequence_witness :
    (denoise sampleEnv readyObject).isOk = true ∧
    ((newEvents readyObject (denoise sampleEnv readyObject).final).map Event.call).length = 12 ∧
    ((newEvents readyObject (denoise sampleEnv readyObject).final).map Event.call).getLast? =
      some .deviceSynchronize := by
  have h := (denoise_call_sequence sampleEnv readyObject).1 (by decide)
  refine ⟨by decide, ?_, ?_⟩
  · rw [h]; rfl
  · rw [h]; rfl

theorem okCalls_cons (e : Event) (es : List Event) :
    okCalls (e :: es) = if e.reply.ok = true then e.call :: okCalls es else okCalls es := by
  unfold okCalls
  by_cases h : e.reply.ok = true <;> simp [List.filter_cons, h]

theorem countP_acquires (ch : Channel) (es : List Event) :
    es.countP (Event.acquires ch) = (okCalls es).countP (Call.maps ch) := by
  induction es with
  | nil => rfl
  | cons e es ih =>
    rw [okCalls_cons]
    by_cases h : e.reply.ok = true
    · simp [List.countP_cons, ih, Event.acquires, h]
    · simp [List.countP_cons, ih, Event.acquires, h]

theorem countP_releases (ch : Channel) (es : List Event) :
    es.countP (Event.releases ch) = (okCalls es).countP (Call.unmaps ch) := by
  induction es with
  | nil => rfl
  | cons e es ih =>
    rw [okCalls_cons]
    by_cases h : e.reply.ok = true
    · simp [List.countP_cons, ih, Event.releases, h]
    · simp [List.countP_cons, ih, Event.releases, h]

/-- The shape of a tested run: the successful calls are the first `k` calls of the script,
and a failed call, if there is one, is the call that follows them. -/
theorem checkedRun_okCalls (env : Env) (n : Nat) (cs : List Call) :
    ∃ k, k ≤ cs.length ∧ okCalls (checkedRun env n cs) = cs.take k ∧
      (∀ e ∈ checkedRun env n cs, e.reply.ok = false → cs[k]? = some e.call) ∧
      (((checkedRun env n cs).all fun e => e.reply.ok) = true → k = cs.length) := by
  induction cs generalizing n with
  | nil => exact ⟨0, le_refl _, rfl, by simp [checkedRun], by simp⟩
  | cons c cs ih =>
    by_cases h : (env n).ok = true
    · obtain ⟨k, hk, h1, h2, h3⟩ := ih (n + 1)
      refine ⟨k + 1, by simpa using hk, ?_, ?_, ?_⟩
      · simp [checkedRun, h, okCalls_cons, h1]
      · intro e he hf
        simp only [checkedRun, h, if_true, List.mem_cons] at he
        rcases he with rfl | he
        · simp [h] at hf
        · simpa using h2 e he hf
      · intro hall
        simp only [checkedRun, h, if_true, List.all_cons, Bool.and_eq_true] at hall
        simp [h3 hall.2]
    · refine ⟨0, Nat.zero_le _, ?_, ?_, ?_⟩
      · simp [checkedRun, h, okCalls_cons, okCalls]
      · intro e he hf
        simp [checkedRun, h] at he
        simp [he]
      · intro hall
        simp [checkedRun, h] at hall

/-- The claim of C1 fails on the code: started on the object left by a successful
`bindBuffers`, with `optixDenoiserComputeIntensity` (the 30th library call of the run)
failing, `denoise` ends early after seven calls, the last one being the failed filter call,
and the three mappings it acquired are still outstanding. -/
theorem denoise_failure_keeps_mappings :
    (bindBuffers (failAt sampleEnv 29) smallWindow fresh).isOk = true ∧
    (denoise (failAt sampleEnv 29) (bindBuffers (failAt sampleEnv 29) smallWindow fresh).final).isOk
      = false ∧
    ((newEvents (bindBuffers (failAt sampleEnv 29) smallWindow fresh).final
      (denoise (failAt sampleEnv 29)
        (bindBuffers (failAt sampleEnv 29) smallWindow fresh).final).final).map
          fun e => (e.call.isFilterCall, e.reply.ok)) =
      [(false, true), (false, true), (false, true), (false, true), (false, true), (false, true),
        (true, false)] ∧
    outstanding .color
      (newEvents (bindBuffers (failAt sampleEnv 29) smallWindow fresh).final
        (denoise (failAt sampleEnv 29)
          (bindBuffers (failAt sampleEnv 29) smallWindow fresh).final).final) = 1 ∧
    outstanding .albedo
      (newEvents (bindBuffers (failAt sampleEnv 29) smallWindow fresh).final
        (denoise (failAt sampleEnv 29)
          (bindBuffers (failAt sampleEnv 29) smallWindow fresh).final).final) = 1 ∧
    outstanding .normal
      (newEvents (bindBuffers (failAt sampleEnv 29) smallWindow fresh).final
        (denoise (failAt sampleEnv 29)
          (bindBuffers (failAt sampleEnv 29) smallWindow fresh).final).final) = 1 := by
  decide

/-- C1, amended: a `denoise` that returns normally has mapped each of the three buffers
once and unmapped it once, so no mapping is outstanding when it returns; a `denoise` that
ends early at `optixDenoiserComputeIntensity` or `optixDenoiserInvoke` has issued no unmap,
and the mapping of each of the three buffers is outstanding. -/
theorem denoise_mappings_at_exit (env : Env) (s : DenoiserOptix) (ch : Channel) :
    ((denoise env s).isOk = true →
      (newEvents s (denoise env s).final).countP (Event.acquires ch) = 1 ∧
      (newEvents s (denoise env s).final).countP (Event.releases ch) = 1 ∧
      outstanding ch (newEvents s (denoise env s).final) = 0) ∧
    ((∃ e ∈ newEvents s (denoise env s).final, e.call.isFilterCall = true ∧ e.reply.ok = false) →
      (newEvents s (denoise env s).final).countP (Event.acquires ch) = 1 ∧
      (newEvents s (denoise env s).final).countP (Event.releases ch) = 0 ∧
      outstanding ch (newEvents s (denoise env s).final) = 1) := by
  rw [denoise_newEvents, denoise_isOk]
  obtain ⟨k, hk, hcalls, hfail, hall⟩ :=
    checkedRun_okCalls env s.trace.length (denoiseCalls env s)
  unfold outstanding
  rw [countP_acquires, countP_releases, hcalls]
  constructor
  · intro h
    rw [hall h]
    cases ch <;> simp [denoiseCalls, Call.maps, Call.unmaps, List.countP_cons]
  · rintro ⟨e, he, hfilter, hbad⟩
    have hk2 := hfail e he hbad
    have hlen : k ≤ 12 := hk
    interval_cases k <;> simp [denoiseCalls] at hk2 <;>
      first
      | (rw [← hk2] at hfilter; simp [Call.isFilterCall] at hfilter; done)
      | (cases ch <;> simp [denoiseCalls, Call.maps, Call.unmaps, List.countP_cons])

/-- A sample run: after a successful `bindBuffers` a `denoise` in
which every call succeeds leaves no mapping of the color buffer outstanding, and one in
which `optixDenoiserInvoke` fails leaves it outstanding. -/
theorem denoise_mappings_at_exit_witness :
    outstanding .color (newEvents readyObject (denoise sampleEnv readyObject).final) = 0 ∧
    outstanding .color
      (newEvents readyObject (denoise (failAt sampleEnv 30) readyObject).final) = 1 :=
  ⟨((denoise_mappings_at_exit sampleEnv readyObject .color).1 (by decide)).2.2,
   ((denoise_mappings_at_exit (failAt sampleEnv 30) readyObject .color).2
      (by decide)).2.2⟩

/-! ## `setupDenoiser` and `bindBuffers` -/

theorem setupDenoiser_ok_iff (env : Env) (width height : Nat) (s s' : DenoiserOptix)
    (u : Unit) :
    setupDenoiser env width height s = .ok u s' ↔
      (∀ e ∈ eventsFrom env s.trace.length (setupCalls env width height s), e.reply.ok = true) ∧
      setupDone env width height s = s' := by
  by_cases h0 : s.denoiser = 0
  · have hc : ¬ (s.denoiser ≠ 0) := by simp [h0]
    simp only [setupDenoiser, bufferResize, bind_run, check_run, modifySelf_run,
      getSelf_run, andThen_ok, andThen_ite, andThen_fail, pure_run, ite_fail_eq_ok, ite_run,
      hc, if_false, setupDone, setupCalls, createIndex, eventsFrom, List.nil_append,
      List.cons_append, Nat.add_assoc, Nat.reduceAdd]
    simp [DenoiserOptix.logged, CUDABuffer.d_pointer, CUDABuffer.size, and_assoc]
  · simp only [setupDenoiser, bufferResize, bind_run, check_run, modifySelf_run,
      getSelf_run, andThen_ok, andThen_ite, andThen_fail, pure_run, ite_fail_eq_ok, ite_run,
      ne_eq, h0, if_true, setupDone, setupCalls, createIndex, eventsFrom, List.nil_append,
      List.cons_append, Nat.add_assoc, Nat.reduceAdd, not_false_eq_true]
    simp [DenoiserOptix.logged, CUDABuffer.d_pointer, CUDABuffer.size, and_assoc, h0]

theorem bind_ok_iff {α β : Type} (x : Exec α) (f : α → Exec β) (s s2 : DenoiserOptix) (b : β) :
    (x >>= f) s = .ok b s2 ↔ ∃ a s1, x s = .ok a s1 ∧ f a s1 = .ok b s2 := by
  rw [bind_run]
  cases h : x s with
  | ok a s1 =>
    simp only [andThen_ok, ok_eq_ok]
    constructor
    · intro hf; exact ⟨a, s1, ⟨rfl, rfl⟩, hf⟩
    · rintro ⟨_, _, ⟨rfl, rfl⟩, hf⟩; exact hf
  | fail s1 => simp

theorem create_ok_iff (env : Env) (width height pbo : Nat) (dst : Channel)
    (flags : RegisterFlags) (s s' : DenoiserOptix) (u : Unit) :
    create env width height pbo dst flags s = .ok u s' ↔
      createOk env s ∧ createDone env width height pbo dst flags s = s' := by
  simp only [create, bind_run, issue_run, check_run, modifySelf_run, getSelf_run, andThen_ok,
    andThen_ite, andThen_fail, when_writeCerr_run, pure_run, ite_fail_eq_ok, createOk,
    createDone, createCalls, eventsFrom, Nat.add_assoc, Nat.reduceAdd]
  cases dst <;>
    simp [DenoiserOptix.logged, DenoiserOptix.setHandle, DenoiserOptix.handle, and_assoc]

theorem bindBuffers_ok_iff (env : Env) (window : PTWindow) (s s' : DenoiserOptix)
    (u : Unit) :
    bindBuffers env window s = .ok u s' ↔ bindOk env window s ∧ bindDone env window s = s' := by
  unfold bindBuffers
  simp only [bind_ok_iff, create_ok_iff, setupDenoiser_ok_iff, issue_run, ok_eq_ok]
  unfold bindOk bindDone bindRegistered
  constructor
  · rintro ⟨_, s1, ⟨h1, rfl⟩, _, s2, ⟨h2, rfl⟩, _, s3, ⟨h3, rfl⟩, _, s4, ⟨-, rfl⟩, h4, rfl⟩
    exact ⟨⟨h1, h2, h3, h4⟩, rfl⟩
  · rintro ⟨⟨h1, h2, h3, h4⟩, rfl⟩
    exact ⟨(), _, ⟨h1, rfl⟩, (), _, ⟨h2, rfl⟩, (), _, ⟨h3, rfl⟩, _, _, ⟨rfl, rfl⟩, h4, rfl⟩

theorem runChecks_ok_iff (env : Env) (cs : List Call) (s s' : DenoiserOptix) (u : Unit) :
    runChecks env cs s = .ok u s' ↔
      (∀ e ∈ eventsFrom env s.trace.length cs, e.reply.ok = true) ∧
      { s with trace := s.trace ++ eventsFrom env s.trace.length cs } = s' := by
  induction cs generalizing s with
  | nil => simp [runChecks, eventsFrom]
  | cons c cs ih =>
    simp only [runChecks, check_run, andThen_ite, andThen_ok, andThen_fail, ite_fail_eq_ok, ih,
      eventsFrom, List.mem_cons, forall_eq_or_imp]
    simp [DenoiserOptix.logged, and_assoc]

theorem denoise_ok_iff (env : Env) (s s' : DenoiserOptix) (u : Unit) :
    denoise env s = .ok u s' ↔
      (∀ e ∈ eventsFrom env s.trace.length (denoiseCalls env s), e.reply.ok = true) ∧
      denoiseDone env s = s' := by
  rw [denoise_eq_runChecks, runChecks_ok_iff]
  rfl

theorem createDone_dims (env : Env) (width height pbo : Nat) (dst : Channel)
    (flags : RegisterFlags) (s : DenoiserOptix) (a b : Nat) :
    createDone env width height pbo dst flags { s with fbWidth := a, fbHeight := b } =
      { createDone env width height pbo dst flags s with fbWidth := a, fbHeight := b } := by
  cases dst <;> rfl

theorem bindRegistered_dims (env : Env) (window : PTWindow) (s : DenoiserOptix) (a b : Nat) :
    bindRegistered env window { s with fbWidth := a, fbHeight := b } =
      { bindRegistered env window s with fbWidth := a, fbHeight := b } := by
  simp only [bindRegistered, createDone_dims]
  rfl

theorem bindDone_dims (env : Env) (window : PTWindow) (s : DenoiserOptix) (a b : Nat) :
    bindDone env window { s with fbWidth := a, fbHeight := b } = bindDone env window s := by
  simp only [bindDone, bindRegistered_dims]
  rfl

theorem bindOk_dims (env : Env) (window : PTWindow) (s : DenoiserOptix) (a b : Nat) :
    bindOk env window { s with fbWidth := a, fbHeight := b } ↔ bindOk env window s := by
  simp only [bindOk, bindRegistered_dims, createDone_dims]
  rfl

theorem resizeBuffers_eq (env : Env) (window : PTWindow) (s : DenoiserOptix) :
    resizeBuffers env window s =
      bindBuffers env window { s with fbWidth := window.texWidth, fbHeight := window.texHeight } :=
  rfl

theorem resizeBuffers_ok_iff (env : Env) (window : PTWindow) (s s' : DenoiserOptix)
    (u : Unit) :
    resizeBuffers env window s = .ok u s' ↔ bindOk env window s ∧ bindDone env window s = s' := by
  rw [resizeBuffers_eq, bindBuffers_ok_iff, bindOk_dims, bindDone_dims]

theorem setBlend_run (val : F32) (s : DenoiserOptix) :
    setBlend val s = .ok () { s with denoiseBlend := stdMax F32.zero (stdMin val F32.one) } := rfl

theorem ApiCall.run_ok (env : Env) (a : ApiCall) (s s' : DenoiserOptix) (u : Unit)
    (h : a.run env s = .ok u s') : s' = a.done env s := by
  cases a with
  | bindBuffers window => exact ((bindBuffers_ok_iff env window s s' u).mp h).2.symm
  | resizeBuffers window => exact ((resizeBuffers_ok_iff env window s s' u).mp h).2.symm
  | denoise => exact ((denoise_ok_iff env s s' u).mp h).2.symm
  | setBlend val =>
    simp only [ApiCall.run, setBlend_run, ok_eq_ok] at h
    exact h.2.symm

theorem runApi_cons_ok (env : Env) (a : ApiCall) (rest : List ApiCall) (s s' : DenoiserOptix)
    (u : Unit) (h : runApi env (a :: rest) s = .ok u s') :
    a.run env s = .ok () (a.done env s) ∧ runApi env rest (a.done env s) = .ok u s' := by
  simp only [runApi] at h
  cases h1 : a.run env s with
  | ok v s1 =>
    rw [h1, andThen_ok] at h
    have := ApiCall.run_ok env a s s1 v h1
    subst this
    exact ⟨rfl, h⟩
  | fail s1 =>
    rw [h1, andThen_fail] at h
    cases h

/-! ## What a complete call adds to the log -/

theorem trace_createDone (env : Env) (width height pbo : Nat) (dst : Channel)
    (flags : RegisterFlags) (s : DenoiserOptix) :
    (createDone env width height pbo dst flags s).trace =
      s.trace ++ eventsFrom env s.trace.length
        (createCalls pbo dst flags (env (s.trace.length + 1)).ptr) := by
  cases dst <;> rfl

theorem length_eventsFrom (env : Env) (n : Nat) (cs : List Call) :
    (eventsFrom env n cs).length = cs.length := by
  induction cs generalizing n with
  | nil => rfl
  | cons c cs ih => simp [eventsFrom, ih]

theorem map_call_eventsFrom (env : Env) (n : Nat) (cs : List Call) :
    (eventsFrom env n cs).map Event.call = cs := by
  induction cs generalizing n with
  | nil => rfl
  | cons c cs ih => simp [eventsFrom, ih]

/-- The log entries added by a complete `bindBuffers(window)` started on `s`. -/
theorem trace_bindDone (env : Env) (window : PTWindow) (s : DenoiserOptix) :
    (bindDone env window s).trace =
      s.trace ++
        (eventsFrom env s.trace.length
            (createCalls window.pbo .color .none (env (s.trace.length + 1)).ptr) ++
          eventsFrom env (s.trace.length + 5)
            (createCalls window.normalPBO .normal .readOnly (env (s.trace.length + 6)).ptr) ++
          eventsFrom env (s.trace.length + 10)
            (createCalls window.albedoPBO .albedo .readOnly (env (s.trace.length + 11)).ptr) ++
          [⟨.glBindBuffer 0, env (s.trace.length + 15)⟩] ++
          eventsFrom env (s.trace.length + 16)
            (setupCalls env window.texWidth window.texHeight (bindRegistered env window s))) := by
  have hlen : (bindRegistered env window s).trace.length = s.trace.length + 16 := by
    simp [bindRegistered, DenoiserOptix.logged, trace_createDone, length_eventsFrom, createCalls]
  simp only [bindDone, setupDone, hlen]
  simp [bindRegistered, DenoiserOptix.logged, trace_createDone, length_eventsFrom, createCalls,
    Nat.add_assoc]

theorem newEvents_bindDone (env : Env) (window : PTWindow) (s : DenoiserOptix) :
    newEvents s (bindDone env window s) =
      eventsFrom env s.trace.length
          (createCalls window.pbo .color .none (env (s.trace.length + 1)).ptr) ++
        eventsFrom env (s.trace.length + 5)
          (createCalls window.normalPBO .normal .readOnly (env (s.trace.length + 6)).ptr) ++
        eventsFrom env (s.trace.length + 10)
          (createCalls window.albedoPBO .albedo .readOnly (env (s.trace.length + 11)).ptr) ++
        [⟨.glBindBuffer 0, env (s.trace.length + 15)⟩] ++
        eventsFrom env (s.trace.length + 16)
          (setupCalls env window.texWidth window.texHeight (bindRegistered env window s)) :=
  newEvents_append _ _ _ (trace_bindDone env window s)

theorem bindRegistered_fields (env : Env) (window : PTWindow) (s : DenoiserOptix) :
    (bindRegistered env window s).denoiser = s.denoiser ∧
    (bindRegistered env window s).optixContext = s.optixContext ∧
    (bindRegistered env window s).denoiseBlend = s.denoiseBlend ∧
    (bindRegistered env window s).trace.length = s.trace.length + 16 ∧
    (bindRegistered env window s).handleColor = (env (s.trace.length + 1)).ptr ∧
    (bindRegistered env window s).handleNormal = (env (s.trace.length + 6)).ptr ∧
    (bindRegistered env window s).handleAlbedo = (env (s.trace.length + 11)).ptr := by
  simp [bindRegistered, DenoiserOptix.logged, createDone, DenoiserOptix.setHandle,
    length_eventsFrom, createCalls, Nat.add_assoc]

theorem bindDone_handle (env : Env) (window : PTWindow) (s : DenoiserOptix) :
    (bindDone env window s).handle .color = (env (s.trace.length + 1)).ptr ∧
    (bindDone env window s).handle .normal = (env (s.trace.length + 6)).ptr ∧
    (bindDone env window s).handle .albedo = (env (s.trace.length + 11)).ptr := by
  obtain ⟨-, -, -, -, h1, h2, h3⟩ := bindRegistered_fields env window s
  exact ⟨h1, h2, h3⟩

theorem length_setupCalls (env : Env) (width height : Nat) (s : DenoiserOptix) :
    (setupCalls env width height s).length = if s.denoiser ≠ 0 then 8 else 7 := by
  unfold setupCalls
  split <;> simp

theorem newEvents_trans (s s1 s2 : DenoiserOptix) (a b : List Event)
    (h1 : s1.trace = s.trace ++ a) (h2 : s2.trace = s1.trace ++ b) :
    newEvents s s2 = newEvents s s1 ++ newEvents s1 s2 := by
  rw [newEvents_append s s1 a h1, newEvents_append s1 s2 b h2]
  apply newEvents_append
  rw [h2, h1, List.append_assoc]

/-! ## Registrations -/

theorem regStep_create (env : Env) (n pbo h : Nat) (dst : Channel) (flags : RegisterFlags)
    (acc : List (Channel × Nat)) (hok : (env (n + 1)).ok = true) :
    (eventsFrom env n (createCalls pbo dst flags h)).foldl regStep acc =
      acc ++ [(dst, (env (n + 1)).ptr)] := by
  simp [eventsFrom, createCalls, regStep, hok]

theorem regStep_setup (env : Env) (n width height : Nat) (s : DenoiserOptix)
    (acc : List (Channel × Nat)) :
    (eventsFrom env n (setupCalls env width height s)).foldl regStep acc = acc := by
  unfold setupCalls
  split <;> simp [eventsFrom, regStep]

theorem regs_bindDone (env : Env) (window : PTWindow) (s : DenoiserOptix)
    (hok : bindOk env window s) (acc : List (Channel × Nat)) :
    (newEvents s (bindDone env window s)).foldl regStep acc =
      acc ++ [(.color, (bindDone env window s).handle .color),
        (.normal, (bindDone env window s).handle .normal),
        (.albedo, (bindDone env window s).handle .albedo)] := by
  obtain ⟨h1, h2, h3, -⟩ := hok
  have l1 : (createDone env window.texWidth window.texHeight window.pbo .color .none s).trace.length
      = s.trace.length + 5 := by
    simp [trace_createDone, length_eventsFrom, createCalls]
  have l2 : (createDone env window.texWidth window.texHeight window.normalPBO .normal .readOnly
      (createDone env window.texWidth window.texHeight window.pbo .color .none s)).trace.length
      = s.trace.length + 10 := by
    simp [trace_createDone, length_eventsFrom, createCalls, Nat.add_assoc]
  have o1 := h1.1
  have o2 := h2.1
  have o3 := h3.1
  rw [l1] at o2
  rw [l2] at o3
  obtain ⟨e1, e2, e3⟩ := bindDone_handle env window s
  rw [newEvents_bindDone, e1, e2, e3]
  simp only [List.foldl_append, regStep_create _ _ _ _ _ _ _ o1, regStep_create _ _ _ _ _ _ _ o2,
    regStep_create _ _ _ _ _ _ _ o3, regStep_setup]
  simp [regStep, Nat.add_assoc]

theorem noUnregister_bindDone (env : Env) (window : PTWindow) (s : DenoiserOptix) :
    ∀ e ∈ newEvents s (bindDone env window s), e.call.isUnregister = false := by
  have h : ((newEvents s (bindDone env window s)).map Event.call).all
      (fun c => !c.isUnregister) = true := by
    rw [newEvents_bindDone]
    simp only [List.map_append, map_call_eventsFrom, List.all_append, List.map_cons, List.map_nil]
    unfold setupCalls
    split <;> simp [createCalls, Call.isUnregister]
  intro e he
  have := List.all_eq_true.mp h e.call (List.mem_map_of_mem _ he)
  simpa using this

/-- The claim of C2 fails on the code: after `resizeBuffers` on a 4 by 4 window followed by
`resizeBuffers` on an 8 by 6 window, every library call having succeeded, two registrations
are alive for each channel (the handles returned by the 2nd, 7th and 12th call of the run
were overwritten without being released), and no unregistration was ever issued. -/
theorem resize_twice_leaks :
    (resizeBuffers sampleEnv smallWindow fresh).isOk = true ∧
    (resizeBuffers sampleEnv largeWindow (resizeBuffers sampleEnv smallWindow fresh).final).isOk
      = true ∧
    liveFor .color (resizeBuffers sampleEnv largeWindow
      (resizeBuffers sampleEnv smallWindow fresh).final).final.trace = [101, 124] ∧
    liveFor .normal (resizeBuffers sampleEnv largeWindow
      (resizeBuffers sampleEnv smallWindow fresh).final).final.trace = [106, 129] ∧
    liveFor .albedo (resizeBuffers sampleEnv largeWindow
      (resizeBuffers sampleEnv smallWindow fresh).final).final.trace = [111, 134] ∧
    ((resizeBuffers sampleEnv largeWindow
      (resizeBuffers sampleEnv smallWindow fresh).final).final.trace.filter
        fun e => e.call.isUnregister) = [] := by
  decide

/-- C2, amended: after `resizeBuffers(w1,h1)` followed by `resizeBuffers(w2,h2)`, both
returning normally, each call has created one registration per channel and released none:
the two calls together leave two live registrations for each channel, the one created by
the first call (no longer held by the object) and the one created by the second call, held
in the channel's handle member; no unregistration is issued. -/
theorem resize_twice_registrations (env : Env) (w1 w2 : PTWindow) (s s1 s2 : DenoiserOptix)
    (h1 : resizeBuffers env w1 s = .ok () s1) (h2 : resizeBuffers env w2 s1 = .ok () s2)
    (ch : Channel) :
    liveFor ch (newEvents s s2) = [s1.handle ch, s2.handle ch] ∧
    (∀ e ∈ newEvents s s2, e.call.isUnregister = false) := by
  obtain ⟨ok1, rfl⟩ := (resizeBuffers_ok_iff env w1 s s1 ()).mp h1
  obtain ⟨ok2, rfl⟩ := (resizeBuffers_ok_iff env w2 _ s2 ()).mp h2
  have hsplit := newEvents_trans s (bindDone env w1 s) (bindDone env w2 (bindDone env w1 s))
    _ _ (trace_bindDone env w1 s) (trace_bindDone env w2 (bindDone env w1 s))
  constructor
  · unfold liveFor liveRegistrations
    rw [hsplit, List.foldl_append, regs_bindDone env w1 s ok1, regs_bindDone env w2 _ ok2]
    cases ch <;> simp
  · intro e he
    rw [hsplit, List.mem_append] at he
    rcases he with he | he
    · exact noUnregister_bindDone env w1 s e he
    · exact noUnregister_bindDone env w2 _ e he

/-- A sample run: two successful `resizeBuffers` on a fresh object. -/
theorem resize_twice_registrations_witness :
    liveFor .color (newEvents fresh
      (resizeBuffers sampleEnv largeWindow (resizeBuffers sampleEnv smallWindow fresh).final).final) =
      [(resizeBuffers sampleEnv smallWindow fresh).final.handle .color,
        (resizeBuffers sampleEnv largeWindow
          (resizeBuffers sampleEnv smallWindow fresh).final).final.handle .color] :=
  (resize_twice_registrations sampleEnv smallWindow largeWindow fresh
    (resizeBuffers sampleEnv smallWindow fresh).final
    (resizeBuffers sampleEnv largeWindow (resizeBuffers sampleEnv smallWindow fresh).final).final
    (ok_of_isOk _ (by decide)) (ok_of_isOk _ (by decide)) .color).1

/-! ## Filter-engine instances -/

theorem engines_create (env : Env) (n pbo h : Nat) (dst : Channel) (flags : RegisterFlags)
    (g : Engines) :
    (eventsFrom env n (createCalls pbo dst flags h)).foldl Engines.step g = g := by
  simp [eventsFrom, createCalls, Engines.step, Call.engine]

theorem engines_denoise (env : Env) (n : Nat) (s : DenoiserOptix) (g : Engines)
    (hd : s.denoiser ∉ g.dead) :
    (eventsFrom env n (denoiseCalls env s)).foldl Engines.step g = g := by
  simp [eventsFrom, denoiseCalls, Engines.step, Call.engine, hd]

theorem engines_setup (env : Env) (width height : Nat) (r : DenoiserOptix) (g : Engines)
    (hinv : EnginesOk g r.denoiser)
    (hok : ∀ e ∈ eventsFrom env r.trace.length (setupCalls env width height r), e.reply.ok = true)
    (hp : (env (createIndex r)).ptr ≠ 0) :
    EnginesOk ((eventsFrom env r.trace.length (setupCalls env width height r)).foldl
      Engines.step g) (env (createIndex r)).ptr ∧
    ((eventsFrom env r.trace.length (setupCalls env width height r)).foldl
      Engines.step g).created = g.created + 1 := by
  obtain ⟨h1, h2, h3, h4, h5, h6⟩ := hinv
  by_cases h0 : r.denoiser = 0
  · simp only [setupCalls, createIndex, h0, ne_eq, not_true_eq_false, if_false, List.nil_append,
      eventsFrom, List.mem_cons, forall_eq_or_imp] at hok hp ⊢
    simp only [h0, if_true] at h3 h4
    obtain ⟨o1, -⟩ := hok
    simp [Engines.step, Call.engine, EnginesOk, o1, h1, h2, h3, h4, h5, hp, List.mem_filter]
  · simp only [setupCalls, createIndex, h0, ne_eq, not_false_eq_true, if_true, List.cons_append,
      List.nil_append, eventsFrom, List.mem_cons, forall_eq_or_imp] at hok hp ⊢
    simp only [h0, if_false] at h3
    obtain ⟨o1, o2, -⟩ := hok
    simp [Engines.step, Call.engine, EnginesOk, o1, o2, h1, h2, h3, h4, h5, hp, List.mem_filter]

theorem engines_bindDone (env : Env) (hnn : ∀ k, (env k).ptr ≠ 0) (window : PTWindow)
    (s : DenoiserOptix) (hok : bindOk env window s)
    (hinv : EnginesOk (engines s.trace) s.denoiser) :
    EnginesOk (engines (bindDone env window s).trace) (bindDone env window s).denoiser ∧
    (engines (bindDone env window s).trace).created = (engines s.trace).created + 1 := by
  obtain ⟨hd, -, -, hl, -⟩ := bindRegistered_fields env window s
  have hs := engines_setup env window.texWidth window.texHeight (bindRegistered env window s)
    (engines s.trace) (by rw [hd]; exact hinv) hok.2.2.2 (hnn _)
  rw [hl] at hs
  have hden : (bindDone env window s).denoiser = (env (createIndex (bindRegistered env window s))).ptr :=
    rfl
  rw [hden]
  unfold engines at hs ⊢
  rw [trace_bindDone]
  simp only [List.foldl_append, engines_create, List.foldl_cons, List.foldl_nil]
  have hstep : Engines.step (List.foldl Engines.step
      { live := [], dead := [], created := 0, destroyed := 0, overlapped := false,
        misused := false } s.trace)
      ⟨.glBindBuffer 0, env (s.trace.length + 15)⟩ =
      List.foldl Engines.step
      { live := [], dead := [], created := 0, destroyed := 0, overlapped := false,
        misused := false } s.trace := by
    simp [Engines.step, Call.engine]
  rw [hstep]
  exact hs

theorem engines_apiStep (env : Env) (hnn : ∀ k, (env k).ptr ≠ 0) (a : ApiCall)
    (s : DenoiserOptix) (hrun : a.run env s = .ok () (a.done env s))
    (hinv : EnginesOk (engines s.trace) s.denoiser) :
    EnginesOk (engines (a.done env s).trace) (a.done env s).denoiser ∧
    (engines (a.done env s).trace).created =
      (engines s.trace).created + (if a.isSetup = true then 1 else 0) := by
  cases a with
  | bindBuffers window =>
    exact engines_bindDone env hnn window s ((bindBuffers_ok_iff env window s _ ()).mp hrun).1 hinv
  | resizeBuffers window =>
    exact engines_bindDone env hnn window s
      ((resizeBuffers_ok_iff env window s _ ()).mp hrun).1 hinv
  | denoise =>
    have : engines (denoiseDone env s).trace = engines s.trace := by
      unfold engines denoiseDone
      simp only [List.foldl_append]
      exact engines_denoise env _ s _ hinv.2.2.2.1
    simp only [ApiCall.done, this, ApiCall.isSetup]
    exact ⟨hinv, by simp⟩
  | setBlend val =>
    simp only [ApiCall.done, ApiCall.isSetup]
    exact ⟨hinv, by simp⟩

theorem engines_runApi (env : Env) (hnn : ∀ k, (env k).ptr ≠ 0) (ops : List ApiCall)
    (s s' : DenoiserOptix) (hrun : runApi env ops s = .ok () s')
    (hinv : EnginesOk (engines s.trace) s.denoiser) :
    EnginesOk (engines s'.trace) s'.denoiser ∧
    (engines s'.trace).created = (engines s.trace).created + ops.countP ApiCall.isSetup := by
  induction ops generalizing s with
  | nil =>
    simp only [runApi, pure_run, ok_eq_ok] at hrun
    obtain ⟨-, rfl⟩ := hrun
    exact ⟨hinv, by simp⟩
  | cons a rest ih =>
    obtain ⟨h1, h2⟩ := runApi_cons_ok env a rest s s' () hrun
    obtain ⟨i1, c1⟩ := engines_apiStep env hnn a s h1 hinv
    obtain ⟨i2, c2⟩ := ih _ h2 i1
    refine ⟨i2, ?_⟩
    rw [c2, c1, List.countP_cons]
    omega

theorem newEvents_setupDone (env : Env) (width height : Nat) (s : DenoiserOptix) :
    newEvents s (setupDone env width height s) =
      eventsFrom env s.trace.length (setupCalls env width height s) :=
  newEvents_append _ _ _ rfl

/-- C9: provided the libraries never hand out a null handle, (a) every `setupDenoiser` that
returns normally first destroys the instance held by the object, if there is one, and
then creates the instance the object holds afterwards; started without an instance it
destroys nothing; (b) after any sequence of public calls that all return normally, started
on an object without an instance and containing `n >= 1` calls of `bindBuffers` or
`resizeBuffers`, `n` instances were created and `n - 1` destroyed, exactly one instance is
alive and it is the one the object holds, no instance was created while another one was
alive, and no call of a setup or a denoise was given a destroyed instance. -/
theorem engine_instances (env : Env) (hnn : ∀ k, (env k).ptr ≠ 0)
    (width height : Nat) (s s1 : DenoiserOptix)
    (hsetup : setupDenoiser env width height s = .ok () s1)
    (ops : List ApiCall) (s0 s' : DenoiserOptix)
    (h0 : s0.denoiser = 0) (ht : s0.trace = [])
    (hrun : runApi env ops s0 = .ok () s') (hn : 1 ≤ ops.countP ApiCall.isSetup) :
    (((newEvents s s1).map Event.call).filter Call.isLifecycle =
        (if s.denoiser ≠ 0 then [.denoiserDestroy s.denoiser] else []) ++
          [.denoiserCreate s.optixContext { inputKind := .rgbAlbedo, pixelFormat := .float4 }] ∧
      (newEvents s s1).filterMap Event.createdEngine = [s1.denoiser]) ∧
    ((engines s'.trace).created = ops.countP ApiCall.isSetup ∧
      (engines s'.trace).destroyed = ops.countP ApiCall.isSetup - 1 ∧
      (engines s'.trace).live = [s'.denoiser] ∧
      (engines s'.trace).overlapped = false ∧
      (engines s'.trace).misused = false) := by
  constructor
  · obtain ⟨hok, rfl⟩ := (setupDenoiser_ok_iff env width height s s1 ()).mp hsetup
    rw [newEvents_setupDone, map_call_eventsFrom]
    by_cases hz : s.denoiser = 0
    · simp only [setupCalls, createIndex, hz, ne_eq, not_true_eq_false, if_false,
        List.nil_append, eventsFrom, List.mem_cons, forall_eq_or_imp] at hok ⊢
      simp [Call.isLifecycle, Event.createdEngine, setupDone, createIndex, hz, hok.1]
    · simp only [setupCalls, createIndex, hz, ne_eq, not_false_eq_true, if_true,
        List.cons_append, List.nil_append, eventsFrom, List.mem_cons, forall_eq_or_imp] at hok ⊢
      simp [Call.isLifecycle, Event.createdEngine, setupDone, createIndex, hz, hok.2.1]
  · have hinit : EnginesOk (engines s0.trace) s0.denoiser := by
      rw [ht, h0]
      simp [engines, EnginesOk]
    obtain ⟨⟨m1, m2, m3, m4, m5, m6⟩, hc⟩ := engines_runApi env hnn ops s0 s' hrun hinit
    have hc0 : (engines s0.trace).created = 0 := by rw [ht]; rfl
    rw [hc0, Nat.zero_add] at hc
    have hd : s'.denoiser ≠ 0 := by
      rcases m6 with h | h
      · omega
      · exact h
    simp only [hd, if_false] at m3
    refine ⟨hc, ?_, m3, m2, m1⟩
    rw [m3] at m5
    simp at m5
    omega

/-! ## Runs in which every library call succeeds -/

theorem eventsFrom_allOk (env : Env) (hall : ∀ k, (env k).ok = true) (n : Nat) (cs : List Call) :
    ∀ e ∈ eventsFrom env n cs, e.reply.ok = true := by
  induction cs generalizing n with
  | nil => simp [eventsFrom]
  | cons c cs ih =>
    intro e he
    simp only [eventsFrom, List.mem_cons] at he
    rcases he with rfl | he
    · exact hall n
    · exact ih _ e he

theorem bindOk_allOk (env : Env) (hall : ∀ k, (env k).ok = true) (window : PTWindow)
    (s : DenoiserOptix) : bindOk env window s :=
  ⟨⟨hall _, hall _, hall _, hall _⟩, ⟨hall _, hall _, hall _, hall _⟩,
    ⟨hall _, hall _, hall _, hall _⟩, eventsFrom_allOk env hall _ _⟩

theorem apiRun_allOk (env : Env) (hall : ∀ k, (env k).ok = true) (a : ApiCall)
    (s : DenoiserOptix) : a.run env s = .ok () (a.done env s) := by
  cases a with
  | bindBuffers window =>
    exact (bindBuffers_ok_iff env window s _ ()).mpr ⟨bindOk_allOk env hall window s, rfl⟩
  | resizeBuffers window =>
    exact (resizeBuffers_ok_iff env window s _ ()).mpr ⟨bindOk_allOk env hall window s, rfl⟩
  | denoise => exact (denoise_ok_iff env s _ ()).mpr ⟨eventsFrom_allOk env hall _ _, rfl⟩
  | setBlend val => rfl

/-- When every library call succeeds, every sequence of public calls returns normally. -/
theorem runApi_allOk (env : Env) (hall : ∀ k, (env k).ok = true) (ops : List ApiCall)
    (s : DenoiserOptix) : runApi env ops s = .ok () (runApi env ops s).final := by
  induction ops generalizing s with
  | nil => rfl
  | cons a rest ih =>
    simp only [runApi, apiRun_allOk env hall a s, andThen_ok]
    exact ih _

/-- A sample run: `setupDenoiser` on a fresh object, and the sample session with its
two setups, all library calls succeeding and returning non-null handles. -/
theorem engine_instances_witness :
    (engines (runApi sampleEnv sampleSession fresh).final.trace).created = 2 ∧
    (engines (runApi sampleEnv sampleSession fresh).final.trace).destroyed = 1 ∧
    (engines (runApi sampleEnv sampleSession fresh).final.trace).live =
      [(runApi sampleEnv sampleSession fresh).final.denoiser] := by
  have h := (engine_instances sampleEnv (fun k => by show 100 + k ≠ 0; omega) 4 4 fresh
    (setupDenoiser sampleEnv 4 4 fresh).final (ok_of_isOk _ (by decide))
    sampleSession fresh (runApi sampleEnv sampleSession fresh).final rfl rfl
    (runApi_allOk sampleEnv (fun _ => rfl) sampleSession fresh) (by decide)).2
  exact ⟨h.1, h.2.1, h.2.2.1⟩

/-! ## `setBlend` -/

/-- C6: for every value `v`, `setBlend(v)` returns normally, changes nothing but the stored
blend factor, and stores `0` when `v < 0`, `1` when `v > 1` and `v` itself when
`0 <= v <= 1`; the stored value always lies in `[0,1]` (also for infinities and
not-a-number), and `setBlend` on the stored value stores it again.  In particular
`setBlend(-0.5)` stores `0`, `setBlend(1.7)` stores `1` and `setBlend(0.3)` stores `0.3`. -/
theorem setBlend_clamps (v : F32) (s : DenoiserOptix) :
    (setBlend v s).isOk = true ∧
    (setBlend v s).final = { s with denoiseBlend := (setBlend v s).final.denoiseBlend } ∧
    (F32.lt v F32.zero = true → (setBlend v s).final.denoiseBlend = F32.zero) ∧
    (F32.lt F32.one v = true → (setBlend v s).final.denoiseBlend = F32.one) ∧
    (F32.le F32.zero v = true → F32.le v F32.one = true →
      (setBlend v s).final.denoiseBlend = v) ∧
    F32.le F32.zero (setBlend v s).final.denoiseBlend = true ∧
    F32.le (setBlend v s).final.denoiseBlend F32.one = true ∧
    (setBlend (setBlend v s).final.denoiseBlend (setBlend v s).final).final =
      (setBlend v s).final ∧
    (setBlend (.fin (-1 / 2)) s).final.denoiseBlend = .fin 0 ∧
    (setBlend (.fin (17 / 10)) s).final.denoiseBlend = .fin 1 ∧
    (setBlend (.fin (3 / 10)) s).final.denoiseBlend = .fin (3 / 10) := by
  obtain ⟨c1, c2, c3, c4, c5⟩ := clamp_cases v
  refine ⟨rfl, rfl, c1, c2, c3, c4, c5, ?_, ?_, ?_, ?_⟩
  · simp only [setBlend_final, clamp_idem]
  · simp only [setBlend_final, stdMax_stdMin_fin]
    norm_num [F32.zero]
  · simp only [setBlend_final, stdMax_stdMin_fin]
    norm_num [F32.one]
  · simp only [setBlend_final, stdMax_stdMin_fin]
    norm_num

/-- A sample run: the value one half lies in `[0,1]` and is stored unchanged. -/
theorem setBlend_clamps_witness :
    (setBlend (.fin (1 / 2)) fresh).final.denoiseBlend = .fin (1 / 2) :=
  (setBlend_clamps (.fin (1 / 2)) fresh).2.2.2.2.1
    (by simp only [F32.zero, le_fin_fin]; norm_num)
    (by simp only [F32.one, le_fin_fin]; norm_num)

/-! ## What `denoise` passes to the filter calls -/

theorem checkedRun_prefix (env : Env) (n : Nat) (cs : List Call) :
    checkedRun env n cs <+: eventsFrom env n cs := by
  induction cs generalizing n with
  | nil => simp [checkedRun, eventsFrom]
  | cons c cs ih =>
    simp only [checkedRun, eventsFrom]
    split
    · exact (List.prefix_cons_inj _).mpr (ih _)
    · simp

theorem checkedRun_take (env : Env) (n : Nat) (cs : List Call) :
    ∃ m, m ≤ cs.length ∧ checkedRun env n cs = (eventsFrom env n cs).take m ∧
      ∀ i, i + 1 < m → (env (n + i)).ok = true := by
  induction cs generalizing n with
  | nil => exact ⟨0, le_refl _, rfl, fun i hi => absurd hi (by omega)⟩
  | cons c cs ih =>
    by_cases h : (env n).ok = true
    · obtain ⟨m, hm, hlog, hok⟩ := ih (n + 1)
      refine ⟨m + 1, by simpa using hm, ?_, ?_⟩
      · simp [checkedRun, eventsFrom, h, hlog]
      · intro i hi
        cases i with
        | zero => exact h
        | succ j =>
          have := hok j (by omega)
          rwa [Nat.add_assoc, Nat.add_comm 1 j] at this
    · refine ⟨1, by simp, ?_, fun i hi => absurd hi (by omega)⟩
      simp [checkedRun, eventsFrom, h]

/-- The log of a `denoise`, whether it returns or ends early, consists of the first `m`
entries of the log of a complete `denoise`, and all of them but the last succeeded. -/
theorem denoise_log_take (env : Env) (s : DenoiserOptix) :
    ∃ m, m ≤ 12 ∧ newEvents s (denoise env s).final =
      (eventsFrom env s.trace.length (denoiseCalls env s)).take m ∧
      ∀ i, i + 1 < m → (env (s.trace.length + i)).ok = true := by
  obtain ⟨m, hm, hlog, hok⟩ := checkedRun_take env s.trace.length (denoiseCalls env s)
  exact ⟨m, hm, by rw [denoise_newEvents]; exact hlog, hok⟩

/-- A `denoise` that returns normally has issued exactly one `optixDenoiserInvoke`. -/
theorem denoise_one_invoke (env : Env) (s : DenoiserOptix)
    (hok : (denoise env s).isOk = true) :
    ((newEvents s (denoise env s).final).filter fun e => e.call.isInvoke).length = 1 := by
  rw [denoise_isOk] at hok
  have hc := checkedRun_all_ok _ _ _ hok
  rw [denoise_newEvents]
  have : ((checkedRun env s.trace.length (denoiseCalls env s)).filter
      fun e => e.call.isInvoke).length =
      (((checkedRun env s.trace.length (denoiseCalls env s)).map Event.call).filter
        Call.isInvoke).length := by
    rw [List.filter_map, List.length_map]
    rfl
  rw [this, hc]
  simp [denoiseCalls, Call.isInvoke]

/-- C4: in every `denoise`, an `optixDenoiserInvoke` that is issued is given two input
layers; the two layers it reads are the color layer and the albedo layer, in this order,
built from the pointers returned for the mappings of `handleColor` and `handleAlbedo` (the
normal layer lies behind them and is not read); the output descriptor is equal to input
layer 0 in every member, so its data pointer is the mapped color pointer.  A `denoise`
that returns normally issues exactly one such call. -/
theorem denoise_invoke_layers (env : Env) (s : DenoiserOptix) :
    ((denoise env s).isOk = true →
      ((newEvents s (denoise env s).final).filter fun e => e.call.isInvoke).length = 1) ∧
    (∀ e ∈ newEvents s (denoise env s).final,
      ∀ d p st ss ls n ox oy out sc scs,
        e.call = .denoiserInvoke d p st ss ls n ox oy out sc scs →
          n = 2 ∧
          ls.take n = [layerOf s (env (s.trace.length + 1)).ptr,
            layerOf s (env (s.trace.length + 3)).ptr] ∧
          ls[0]? = some out ∧
          out.data = (env (s.trace.length + 1)).ptr ∧
          (newEvents s (denoise env s).final)[1]? =
            some ⟨.graphicsResourceGetMappedPointer s.handleColor, env (s.trace.length + 1)⟩ ∧
          (newEvents s (denoise env s).final)[3]? =
            some ⟨.graphicsResourceGetMappedPointer s.handleAlbedo, env (s.trace.length + 3)⟩) := by
  refine ⟨denoise_one_invoke env s, ?_⟩
  · obtain ⟨m, hm, hlog, -⟩ := denoise_log_take env s
    rw [hlog]
    intro e he d p st ss ls n ox oy out sc scs hcall
    have hc : e.call ∈ ((eventsFrom env s.trace.length (denoiseCalls env s)).take m).map
        Event.call := List.mem_map_of_mem _ he
    rw [List.map_take, map_call_eventsFrom, hcall] at hc
    interval_cases m <;> simp [denoiseCalls] at hc <;>
      (obtain ⟨-, -, -, -, rfl, rfl, -, -, rfl, -, -⟩ := hc
       simp [denoiseCalls, eventsFrom, layerOf])

/-- A sample run: a `denoise` in which every call succeeds issues one
`optixDenoiserInvoke`. -/
theorem denoise_invoke_layers_witness :
    ((newEvents readyObject (denoise sampleEnv readyObject).final).filter
      fun e => e.call.isInvoke).length = 1 :=
  (denoise_invoke_layers sampleEnv readyObject).1 (by decide)

theorem apiDone_blend (env : Env) (a : ApiCall) (s : DenoiserOptix)
    (h : a.isSetBlend = false) : (a.done env s).denoiseBlend = s.denoiseBlend := by
  cases a with
  | bindBuffers window => exact (bindRegistered_fields env window s).2.2.1
  | resizeBuffers window => exact (bindRegistered_fields env window s).2.2.1
  | denoise => rfl
  | setBlend val => simp [ApiCall.isSetBlend] at h

theorem runApi_blend (env : Env) (ops : List ApiCall) (s s' : DenoiserOptix)
    (hno : ∀ a ∈ ops, a.isSetBlend = false) (hrun : runApi env ops s = .ok () s') :
    s'.denoiseBlend = s.denoiseBlend := by
  induction ops generalizing s with
  | nil =>
    simp only [runApi, pure_run, ok_eq_ok] at hrun
    rw [← hrun.2]
  | cons a rest ih =>
    obtain ⟨-, h2⟩ := runApi_cons_ok env a rest s s' () hrun
    rw [ih _ (fun b hb => hno b (List.mem_cons_of_mem _ hb)) h2]
    exact apiDone_blend env a s (hno a (List.mem_cons_self _ _))

/-- C7: let `denoise` be called after `setBlend(v)`, any number of other public calls that
return normally lying in between, none of them a `setBlend`.  Then every
`optixDenoiserInvoke` it issues is given a parameter block with `denoiseAlpha = 0`, with
`blendFactor` the value stored by that `setBlend`, that is `max(0, min(v, 1))`, and with
`hdrIntensity` the device address that the one `optixDenoiserComputeIntensity` issued
before it, in the same `denoise`, has successfully written the intensity to.  A `denoise`
that returns normally issues exactly one `optixDenoiserInvoke`. -/
theorem denoise_params_after_setBlend (env : Env) (v : F32) (s : DenoiserOptix)
    (ops : List ApiCall) (s1 : DenoiserOptix)
    (hno : ∀ a ∈ ops, a.isSetBlend = false)
    (hrun : runApi env ops (setBlend v s).final = .ok () s1) :
    ((denoise env s1).isOk = true →
      ((newEvents s1 (denoise env s1).final).filter fun e => e.call.isInvoke).length = 1) ∧
    (∀ e ∈ newEvents s1 (denoise env s1).final, ∀ p, e.call.invokeParams = some p →
      p.denoiseAlpha = 0 ∧
      p.blendFactor = (setBlend v s).final.denoiseBlend ∧
      p.blendFactor = stdMax F32.zero (stdMin v F32.one) ∧
      (((newEvents s1 (denoise env s1).final).takeWhile fun e => !e.call.isInvoke).filterMap
        fun e => if e.reply.ok = true then e.call.intensityTarget else none) =
        [p.hdrIntensity]) := by
  have hb : s1.denoiseBlend = stdMax F32.zero (stdMin v F32.one) :=
    runApi_blend env ops _ s1 hno hrun
  refine ⟨denoise_one_invoke env s1, ?_⟩
  obtain ⟨m, hm, hlog, hok⟩ := denoise_log_take env s1
  rw [hlog]
  have key : ∀ p ∈ ((eventsFrom env s1.trace.length (denoiseCalls env s1)).take m).filterMap
      (fun e => e.call.invokeParams),
      p.denoiseAlpha = 0 ∧
      p.blendFactor = (setBlend v s).final.denoiseBlend ∧
      p.blendFactor = stdMax F32.zero (stdMin v F32.one) ∧
      ((((eventsFrom env s1.trace.length (denoiseCalls env s1)).take m).takeWhile
        fun e => !e.call.isInvoke).filterMap
          fun e => if e.reply.ok = true then e.call.intensityTarget else none) =
        [p.hdrIntensity] := by
    have h6 : 8 ≤ m → (env (s1.trace.length + 6)).ok = true := fun h => hok 6 (by omega)
    interval_cases m <;>
      simp [denoiseCalls, eventsFrom, Call.invokeParams, Call.isInvoke, Call.intensityTarget, hb,
        setBlend_final, h6]
  intro e he p hp
  exact key p (List.mem_filterMap.mpr ⟨e, he, hp⟩)

/-- A sample run: `setBlend(0.3)` on a fresh object, then `bindBuffers`, then a
`denoise` in which every call succeeds. -/
theorem denoise_params_after_setBlend_witness :
    ((newEvents (runApi sampleEnv [.bindBuffers smallWindow] (setBlend (.fin (3 / 10)) fresh).final).final
      (denoise sampleEnv
        (runApi sampleEnv [.bindBuffers smallWindow]
          (setBlend (.fin (3 / 10)) fresh).final).final).final).filter
      fun e => e.call.isInvoke).length = 1 :=
  (denoise_params_after_setBlend sampleEnv (.fin (3 / 10)) fresh [.bindBuffers smallWindow]
    (runApi sampleEnv [.bindBuffers smallWindow] (setBlend (.fin (3 / 10)) fresh).final).final
    (by decide) (runApi_allOk sampleEnv (fun _ => rfl) _ _)).1
    (by rw [show denoise sampleEnv _ = _ from apiRun_allOk sampleEnv (fun _ => rfl) .denoise _]
        rfl)

/-! ## Sizes -/

theorem sizing_create (env : Env) (n pbo h : Nat) (dst : Channel) (flags : RegisterFlags) :
    (eventsFrom env n (createCalls pbo dst flags h)).filterMap Event.sizing = [] := by
  simp [eventsFrom, createCalls, Event.sizing, Call.memoryQuery]

theorem sizing_denoise (env : Env) (n : Nat) (s : DenoiserOptix) :
    (eventsFrom env n (denoiseCalls env s)).filterMap Event.sizing = [] := by
  simp [eventsFrom, denoiseCalls, Event.sizing, Call.memoryQuery]

theorem sizing_setup (env : Env) (width height : Nat) (r : DenoiserOptix)
    (hok : ∀ e ∈ eventsFrom env r.trace.length (setupCalls env width height r), e.reply.ok = true) :
    (eventsFrom env r.trace.length (setupCalls env width height r)).filterMap Event.sizing =
      [((width, height), (setupDone env width height r).denoiserScratch.size,
        (setupDone env width height r).denoiserState.size)] := by
  by_cases h0 : r.denoiser = 0
  · simp only [setupCalls, createIndex, h0, ne_eq, not_true_eq_false, if_false, List.nil_append,
      eventsFrom, List.mem_cons, forall_eq_or_imp, Nat.add_assoc, Nat.reduceAdd] at hok ⊢
    obtain ⟨-, -, o3, -⟩ := hok
    simp [Event.sizing, Call.memoryQuery, o3, setupDone, createIndex, h0, CUDABuffer.size]
  · simp only [setupCalls, createIndex, h0, ne_eq, not_false_eq_true, if_true, List.cons_append,
      List.nil_append, eventsFrom, List.mem_cons, forall_eq_or_imp, Nat.add_assoc,
      Nat.reduceAdd] at hok ⊢
    obtain ⟨-, -, -, o4, -⟩ := hok
    simp [Event.sizing, Call.memoryQuery, o4, setupDone, createIndex, h0, CUDABuffer.size,
      Nat.add_assoc]

theorem sized_setupDone (env : Env) (width height : Nat) (r : DenoiserOptix)
    (hok : ∀ e ∈ eventsFrom env r.trace.length (setupCalls env width height r), e.reply.ok = true) :
    Sized (setupDone env width height r) := by
  have htr : (setupDone env width height r).trace =
      r.trace ++ eventsFrom env r.trace.length (setupCalls env width height r) := rfl
  unfold Sized lastQuery
  rw [htr, List.filterMap_append, sizing_setup env width height r hok]
  simp
  exact ⟨rfl, rfl⟩

theorem sized_bindDone (env : Env) (window : PTWindow) (s : DenoiserOptix)
    (hok : bindOk env window s) : Sized (bindDone env window s) :=
  sized_setupDone env window.texWidth window.texHeight (bindRegistered env window s) hok.2.2.2

theorem sized_apiStep (env : Env) (a : ApiCall) (s : DenoiserOptix)
    (hrun : a.run env s = .ok () (a.done env s)) (h : Sized s ∨ a.isSetup = true) :
    Sized (a.done env s) := by
  cases a with
  | bindBuffers window =>
    exact sized_bindDone env window s ((bindBuffers_ok_iff env window s _ ()).mp hrun).1
  | resizeBuffers window =>
    exact sized_bindDone env window s ((resizeBuffers_ok_iff env window s _ ()).mp hrun).1
  | denoise =>
    have hs : Sized s := by
      rcases h with h | h
      · exact h
      · simp [ApiCall.isSetup] at h
    unfold Sized lastQuery at hs ⊢
    simp only [ApiCall.done, denoiseDone, List.filterMap_append, sizing_denoise,
      List.append_nil]
    exact hs
  | setBlend val =>
    rcases h with h | h
    · exact h
    · simp [ApiCall.isSetup] at h

theorem sized_runApi (env : Env) (ops : List ApiCall) (s s' : DenoiserOptix)
    (hrun : runApi env ops s = .ok () s') (h : Sized s) : Sized s' := by
  induction ops generalizing s with
  | nil =>
    simp only [runApi, pure_run, ok_eq_ok] at hrun
    rw [← hrun.2]
    exact h
  | cons a rest ih =>
    obtain ⟨h1, h2⟩ := runApi_cons_ok env a rest s s' () hrun
    exact ih _ h2 (sized_apiStep env a s h1 (Or.inl h))

theorem setupDone_dims (env : Env) (width height : Nat) (r : DenoiserOptix) :
    (setupDone env width height r).fbWidth = width ∧
    (setupDone env width height r).fbHeight = height := ⟨rfl, rfl⟩

theorem denoise_passes_fields (env : Env) (s : DenoiserOptix) :
    ∀ e ∈ newEvents s (denoise env s).final,
      (∀ x, e.call.scratchSize = some x → x = s.denoiserScratch.size) ∧
      (∀ x, e.call.stateSize = some x → x = s.denoiserState.size) ∧
      (∀ img ∈ e.call.images, img.width = s.fbWidth ∧ img.height = s.fbHeight) := by
  intro e he
  rw [denoise_newEvents] at he
  have hc := checkedRun_call_mem env _ _ e he
  simp only [denoiseCalls, List.mem_cons, List.mem_singleton, List.not_mem_nil, or_false] at hc
  rcases hc with hc | hc | hc | hc | hc | hc | hc | hc | hc | hc | hc | hc <;>
    rw [hc] <;>
    simp [Call.scratchSize, Call.stateSize, Call.images, layerOf, CUDABuffer.size]

/-- C3: (a) after `setupDenoiser(w,h)` has returned normally, the one memory-requirements
query it made was made for `(w,h)`, the scratch buffer has the scratch size and the state
buffer the state size that this query returned, and the stored frame dimensions are
`(w,h)`; (b) the same holds after every `bindBuffers` or `resizeBuffers` that returns
normally, for the dimensions of the window; (c) it still holds after any further public
calls that return normally; (d) and a `denoise` started then passes, in every filter call
it issues, the size of the scratch buffer, the size of the state buffer and image
descriptors with the stored frame dimensions: the sizes passed are the ones computed for
the dimensions written into the descriptors. -/
theorem sizes_follow_dimensions (env : Env) (width height : Nat) (s s1 : DenoiserOptix)
    (hsetup : setupDenoiser env width height s = .ok () s1)
    (window : PTWindow) (t t1 : DenoiserOptix)
    (hbind : bindBuffers env window t = .ok () t1 ∨ resizeBuffers env window t = .ok () t1)
    (ops : List ApiCall) (t2 : DenoiserOptix) (hrun : runApi env ops t1 = .ok () t2) :
    (lastQuery (newEvents s s1) =
        some ((width, height), s1.denoiserScratch.size, s1.denoiserState.size) ∧
      ((newEvents s s1).filterMap Event.sizing).length = 1 ∧
      s1.fbWidth = width ∧ s1.fbHeight = height ∧ Sized s1) ∧
    (lastQuery (newEvents t t1) =
        some ((window.texWidth, window.texHeight), t1.denoiserScratch.size,
          t1.denoiserState.size) ∧
      t1.fbWidth = window.texWidth ∧ t1.fbHeight = window.texHeight ∧ Sized t1) ∧
    Sized t2 ∧
    (∀ e ∈ newEvents t2 (denoise env t2).final,
      (∀ x, e.call.scratchSize = some x → x = t2.denoiserScratch.size) ∧
      (∀ x, e.call.stateSize = some x → x = t2.denoiserState.size) ∧
      (∀ img ∈ e.call.images, img.width = t2.fbWidth ∧ img.height = t2.fbHeight)) := by
  obtain ⟨hok, rfl⟩ := (setupDenoiser_ok_iff env width height s s1 ()).mp hsetup
  have hb : bindOk env window t ∧ bindDone env window t = t1 := by
    rcases hbind with h | h
    · exact (bindBuffers_ok_iff env window t t1 ()).mp h
    · exact (resizeBuffers_ok_iff env window t t1 ()).mp h
  obtain ⟨hbok, rfl⟩ := hb
  have hst1 : Sized (bindDone env window t) := sized_bindDone env window t hbok
  refine ⟨⟨?_, ?_, rfl, rfl, sized_setupDone env width height s hok⟩,
    ⟨?_, rfl, rfl, hst1⟩, sized_runApi env ops _ t2 hrun hst1, denoise_passes_fields env t2⟩
  · rw [newEvents_setupDone]
    unfold lastQuery
    rw [sizing_setup env width height s hok]
    rfl
  · rw [newEvents_setupDone, sizing_setup env width height s hok]
    rfl
  · rw [newEvents_bindDone]
    unfold lastQuery
    simp only [List.filterMap_append, sizing_create, List.nil_append]
    have hl := (bindRegistered_fields env window t).2.2.2.1
    have := sizing_setup env window.texWidth window.texHeight (bindRegistered env window t)
      hbok.2.2.2
    rw [hl] at this
    rw [this]
    simp [Event.sizing, Call.memoryQuery]
    exact ⟨rfl, rfl⟩

/-- A sample run: `setupDenoiser(4,4)` on a fresh object; `bindBuffers` on a fresh
object followed by a denoise and a change of the blend factor. -/
theorem sizes_follow_dimensions_witness :
    Sized (setupDenoiser sampleEnv 4 4 fresh).final ∧
    Sized (runApi sampleEnv [.denoise, .setBlend (.fin (1 / 2))]
      (bindBuffers sampleEnv smallWindow fresh).final).final := by
  have h := sizes_follow_dimensions sampleEnv 4 4 fresh (setupDenoiser sampleEnv 4 4 fresh).final
    (ok_of_isOk _ (by decide)) smallWindow fresh (bindBuffers sampleEnv smallWindow fresh).final
    (Or.inl (ok_of_isOk _ (by decide))) [.denoise, .setBlend (.fin (1 / 2))]
    (runApi sampleEnv [.denoise, .setBlend (.fin (1 / 2))]
      (bindBuffers sampleEnv smallWindow fresh).final).final
    (runApi_allOk sampleEnv (fun _ => rfl) _ _)
  exact ⟨h.1.2.2.2.2, h.2.2.1⟩

/-! ## `resizeBuffers` against `bindBuffers` -/

@[simp] theorem mapState_ok {α : Type} (g : DenoiserOptix → DenoiserOptix) (a : α)
    (s : DenoiserOptix) : (Res.ok a s).mapState g = .ok a (g s) := rfl

@[simp] theorem mapState_fail {α : Type} (g : DenoiserOptix → DenoiserOptix)
    (s : DenoiserOptix) : (Res.fail s : Res α).mapState g = .fail (g s) := rfl

@[simp] theorem mapState_ite {α : Type} (g : DenoiserOptix → DenoiserOptix) (c : Prop)
    [Decidable c] (x y : Res α) :
    (if c then x else y).mapState g = if c then x.mapState g else y.mapState g := by
  split <;> rfl

/-- The lambda `create` neither reads nor writes the stored frame dimensions. -/
theorem create_withDims (env : Env) (width height pbo : Nat) (dst : Channel)
    (flags : RegisterFlags) (s : DenoiserOptix) (a b : Nat) :
    create env width height pbo dst flags (s.withDims a b) =
      (create env width height pbo dst flags s).mapState fun t => t.withDims a b := by
  simp only [create, bind_run, issue_run, check_run, modifySelf_run, getSelf_run, andThen_ok,
    andThen_ite, andThen_fail, when_writeCerr_run, pure_run, mapState_ite, mapState_ok,
    mapState_fail]
  cases dst <;>
    simp [DenoiserOptix.logged, DenoiserOptix.setHandle, DenoiserOptix.handle,
      DenoiserOptix.withDims]

theorem setupDenoiser_split (env : Env) (width height : Nat) (s : DenoiserOptix) :
    setupDenoiser env width height s =
      (setupAlloc env width height s).andThen fun _ => setupFinish env width height := by
  by_cases h0 : s.denoiser = 0
  · simp only [setupDenoiser, setupAlloc, setupFinish, bufferResize, bind_run, check_run,
      modifySelf_run, getSelf_run, andThen_ok, andThen_ite, andThen_fail, pure_run, ite_run,
      ne_eq, h0, not_true_eq_false, if_false]
  · simp only [setupDenoiser, setupAlloc, setupFinish, bufferResize, bind_run, check_run,
      modifySelf_run, getSelf_run, andThen_ok, andThen_ite, andThen_fail, pure_run, ite_run,
      ne_eq, h0, not_false_eq_true, if_true]

theorem setupAlloc_withDims (env : Env) (width height : Nat) (s : DenoiserOptix) (a b : Nat) :
    setupAlloc env width height (s.withDims a b) =
      (setupAlloc env width height s).mapState fun t => t.withDims a b := by
  by_cases h0 : s.denoiser = 0
  · have h1 : (s.withDims a b).denoiser = 0 := h0
    simp only [setupAlloc, bufferResize, bind_run, check_run,
      modifySelf_run, getSelf_run, andThen_ok, andThen_ite, andThen_fail, pure_run, ite_run,
      ne_eq, h0, h1, not_true_eq_false, if_false, mapState_ite, mapState_ok, mapState_fail]
    simp [DenoiserOptix.logged, DenoiserOptix.withDims]
  · have h1 : ¬ (s.withDims a b).denoiser = 0 := h0
    simp only [setupAlloc, bufferResize, bind_run, check_run,
      modifySelf_run, getSelf_run, andThen_ok, andThen_ite, andThen_fail, pure_run, ite_run,
      ne_eq, h0, h1, not_false_eq_true, if_true, mapState_ite, mapState_ok, mapState_fail]
    simp [DenoiserOptix.logged, DenoiserOptix.withDims]

theorem setupFinish_withDims (env : Env) (width height : Nat) (t : DenoiserOptix) (a b : Nat) :
    setupFinish env width height (t.withDims a b) = setupFinish env width height t := rfl

theorem keepsDims_of_commutes {α : Type} (x : Exec α) (s : DenoiserOptix)
    (h : x (s.withDims s.fbWidth s.fbHeight) =
      (x s).mapState fun t => t.withDims s.fbWidth s.fbHeight) :
    (x s).final.fbWidth = s.fbWidth ∧ (x s).final.fbHeight = s.fbHeight := by
  have hs : s.withDims s.fbWidth s.fbHeight = s := rfl
  rw [hs] at h
  cases hx : x s with
  | ok v t =>
    rw [hx] at h
    simp only [mapState_ok, ok_eq_ok, true_and] at h
    exact ⟨by rw [h]; rfl, by rw [h]; rfl⟩
  | fail t =>
    rw [hx] at h
    simp only [mapState_fail, Res.fail.injEq] at h
    exact ⟨by rw [h]; rfl, by rw [h]; rfl⟩

theorem keepsBuffers_of_commutes {α : Type} (x : Exec α) (s : DenoiserOptix)
    (h : x (s.withBuffers s.denoiserScratch s.denoiserState) =
      (x s).mapState fun t => t.withBuffers s.denoiserScratch s.denoiserState) :
    (x s).final.denoiserScratch = s.denoiserScratch ∧
    (x s).final.denoiserState = s.denoiserState := by
  have hs : s.withBuffers s.denoiserScratch s.denoiserState = s := rfl
  rw [hs] at h
  cases hx : x s with
  | ok v t =>
    rw [hx] at h
    simp only [mapState_ok, ok_eq_ok, true_and] at h
    exact ⟨by rw [h]; rfl, by rw [h]; rfl⟩
  | fail t =>
    rw [hx] at h
    simp only [mapState_fail, Res.fail.injEq] at h
    exact ⟨by rw [h]; rfl, by rw [h]; rfl⟩

/-- The lambda `create` neither reads nor writes the scratch and state buffers. -/
theorem create_withBuffers (env : Env) (width height pbo : Nat) (dst : Channel)
    (flags : RegisterFlags) (s : DenoiserOptix) (x y : CUDABuffer) :
    create env width height pbo dst flags (s.withBuffers x y) =
      (create env width height pbo dst flags s).mapState fun t => t.withBuffers x y := by
  simp only [create, bind_run, issue_run, check_run, modifySelf_run, getSelf_run, andThen_ok,
    andThen_ite, andThen_fail, when_writeCerr_run, pure_run, mapState_ite, mapState_ok,
    mapState_fail]
  cases dst <;>
    simp [DenoiserOptix.logged, DenoiserOptix.setHandle, DenoiserOptix.handle,
      DenoiserOptix.withBuffers]

/-- What the lambda `create` leaves untouched, however it ends. -/
theorem create_keeps (env : Env) (width height pbo : Nat) (dst : Channel)
    (flags : RegisterFlags) (s : DenoiserOptix) :
    (create env width height pbo dst flags s).final.fbWidth = s.fbWidth ∧
    (create env width height pbo dst flags s).final.fbHeight = s.fbHeight ∧
    (create env width height pbo dst flags s).final.denoiserScratch = s.denoiserScratch ∧
    (create env width height pbo dst flags s).final.denoiserState = s.denoiserState := by
  obtain ⟨h1, h2⟩ := keepsDims_of_commutes _ s (create_withDims env width height pbo dst flags s _ _)
  obtain ⟨h3, h4⟩ :=
    keepsBuffers_of_commutes _ s (create_withBuffers env width height pbo dst flags s _ _)
  exact ⟨h1, h2, h3, h4⟩

theorem setupAlloc_split (env : Env) (width height : Nat) (s : DenoiserOptix) :
    setupAlloc env width height s =
      (setupHead env width height s).andThen fun sz => setupTail env sz := by
  by_cases h0 : s.denoiser = 0
  · simp only [setupAlloc, setupHead, setupTail, bufferResize, bind_run, check_run,
      modifySelf_run, getSelf_run, andThen_ok, andThen_ite, andThen_fail, pure_run, ite_run,
      ne_eq, h0, not_true_eq_false, if_false]
  · simp only [setupAlloc, setupHead, setupTail, bufferResize, bind_run, check_run,
      modifySelf_run, getSelf_run, andThen_ok, andThen_ite, andThen_fail, pure_run, ite_run,
      ne_eq, h0, not_false_eq_true, if_true]

theorem setupHead_withBuffers (env : Env) (width height : Nat) (s : DenoiserOptix)
    (x y : CUDABuffer) :
    setupHead env width height (s.withBuffers x y) =
      (setupHead env width height s).mapState fun t => t.withBuffers x y := by
  by_cases h0 : s.denoiser = 0
  · have h1 : (s.withBuffers x y).denoiser = 0 := h0
    simp only [setupHead, bufferResize, bind_run, check_run,
      modifySelf_run, getSelf_run, andThen_ok, andThen_ite, andThen_fail, pure_run, ite_run,
      ne_eq, h0, h1, not_true_eq_false, if_false, mapState_ite, mapState_ok, mapState_fail]
    simp [DenoiserOptix.logged, DenoiserOptix.withBuffers]
  · have h1 : ¬ (s.withBuffers x y).denoiser = 0 := h0
    simp only [setupHead, bufferResize, bind_run, check_run,
      modifySelf_run, getSelf_run, andThen_ok, andThen_ite, andThen_fail, pure_run, ite_run,
      ne_eq, h0, h1, not_false_eq_true, if_true, mapState_ite, mapState_ok, mapState_fail]
    simp [DenoiserOptix.logged, DenoiserOptix.withBuffers]

/-- When one of the two reallocations of lines 182-183 fails, the state buffer is untouched,
and the scratch buffer too unless the reallocation that failed is the second one. -/
theorem setupTail_fail (env : Env) (sz : OptixDenoiserSizes) (t1 t : DenoiserOptix)
    (h : setupTail env sz t1 = .fail t) :
    t.denoiserState = t1.denoiserState ∧
    (t.denoiserScratch = t1.denoiserScratch ∨ stateReallocFailed t = true) := by
  simp only [setupTail, bufferResize, bind_run, check_run, modifySelf_run, andThen_ok,
    andThen_ite, andThen_fail] at h
  by_cases h1 : (env t1.trace.length).ok = true
  · simp only [h1, if_true] at h
    by_cases h2 : (env (t1.logged env (.bufferResize .scratch
        sz.recommendedScratchSizeInBytes)).trace.length).ok = true
    · simp [DenoiserOptix.logged] at h2
      simp [DenoiserOptix.logged, h2] at h
    · simp [DenoiserOptix.logged] at h2
      simp [DenoiserOptix.logged, h2] at h
      subst h
      refine ⟨rfl, Or.inr ?_⟩
      simp [stateReallocFailed, Call.resizes, CUDABuffer.size, h1, h2]
  · simp only [h1] at h
    simp at h
    subst h
    exact ⟨rfl, Or.inl rfl⟩

/-- When the first part of `setupDenoiser` ends early, the state buffer is untouched, and
the scratch buffer too unless the call that failed is the reallocation of the state
buffer. -/
theorem setupAlloc_fail (env : Env) (width height : Nat) (s t : DenoiserOptix)
    (h : setupAlloc env width height s = .fail t) :
    t.denoiserState = s.denoiserState ∧
    (t.denoiserScratch = s.denoiserScratch ∨ stateReallocFailed t = true) := by
  rw [setupAlloc_split] at h
  obtain ⟨k1, k2⟩ := keepsBuffers_of_commutes _ s (setupHead_withBuffers env width height s _ _)
  cases hh : setupHead env width height s with
  | ok sz t1 =>
    rw [hh] at h k1 k2
    simp only [andThen_ok] at h
    simp only [final_ok] at k1 k2
    obtain ⟨f1, f2⟩ := setupTail_fail env sz t1 t h
    refine ⟨f1.trans k2, ?_⟩
    rcases f2 with f2 | f2
    · exact Or.inl (f2.trans k1)
    · exact Or.inr f2
  | fail t1 =>
    rw [hh] at h k1 k2
    simp only [andThen_fail, Res.fail.injEq] at h
    simp only [final_fail] at k1 k2
    subst h
    exact ⟨k2, Or.inl k1⟩

theorem dimsOnly_andThen {α : Type} (a b : Nat) (s : DenoiserOptix) (r : Res α)
    (f : α → Exec Unit)
    (hkeep : r.final.fbWidth = s.fbWidth ∧ r.final.fbHeight = s.fbHeight ∧
      r.final.denoiserScratch = s.denoiserScratch ∧ r.final.denoiserState = s.denoiserState)
    (hf : ∀ x t, DimsOnly a b t (f x t) (f x (t.withDims a b))) :
    DimsOnly a b s (r.andThen f) ((r.mapState fun t => t.withDims a b).andThen f) := by
  obtain ⟨k1, k2, k3, k4⟩ := hkeep
  cases r with
  | ok x t =>
    rcases hf x t with h | ⟨h1, h2, h3, h4, h5, h6⟩
    · exact Or.inl h
    · refine Or.inr ⟨h1, h2, h3.trans k1, h4.trans k2, h5.trans k4, ?_⟩
      rcases h6 with h6 | h6
      · exact Or.inl (h6.trans k3)
      · exact Or.inr h6
  | fail t => exact Or.inr ⟨rfl, rfl, k1, k2, k4, Or.inl k3⟩

theorem setupDenoiser_withDims (env : Env) (width height : Nat) (s : DenoiserOptix)
    (a b : Nat) :
    DimsOnly a b s (setupDenoiser env width height s)
      (setupDenoiser env width height (s.withDims a b)) := by
  rw [setupDenoiser_split, setupDenoiser_split, setupAlloc_withDims]
  obtain ⟨d1, d2⟩ := keepsDims_of_commutes _ s (setupAlloc_withDims env width height s _ _)
  cases hh : setupAlloc env width height s with
  | ok u t => exact Or.inl (setupFinish_withDims env width height t a b)
  | fail t =>
    rw [hh] at d1 d2
    obtain ⟨f1, f2⟩ := setupAlloc_fail env width height s t hh
    exact Or.inr ⟨rfl, rfl, d1, d2, f1, f2⟩

theorem bindBuffers_withDims (env : Env) (window : PTWindow) (s : DenoiserOptix) (a b : Nat) :
    DimsOnly a b s (bindBuffers env window s) (bindBuffers env window (s.withDims a b)) := by
  simp only [bindBuffers, bind_run]
  rw [create_withDims]
  refine dimsOnly_andThen a b s _ _ (create_keeps env _ _ _ _ _ s) fun _ t1 => ?_
  simp only [bind_run]
  rw [create_withDims]
  refine dimsOnly_andThen a b t1 _ _ (create_keeps env _ _ _ _ _ t1) fun _ t2 => ?_
  simp only [bind_run]
  rw [create_withDims]
  refine dimsOnly_andThen a b t2 _ _ (create_keeps env _ _ _ _ _ t2) fun _ t3 => ?_
  simp only [bind_run, issue_run, andThen_ok]
  exact setupDenoiser_withDims env window.texWidth window.texHeight (t3.logged env _) a b

theorem resize_dimsOnly (env : Env) (window : PTWindow) (s : DenoiserOptix) :
    DimsOnly window.texWidth window.texHeight s (bindBuffers env window s)
      (resizeBuffers env window s) :=
  bindBuffers_withDims env window s window.texWidth window.texHeight

theorem cerr_createDone (env : Env) (width height pbo : Nat) (dst : Channel)
    (flags : RegisterFlags) (s : DenoiserOptix) :
    (createDone env width height pbo dst flags s).cerr =
      s.cerr ++ mismatchLine (env (s.trace.length + 3)).numBytes (expectedBytes width height) := by
  unfold mismatchLine
  cases dst <;> simp only [createDone, DenoiserOptix.setHandle] <;> split <;> simp

theorem length_createDone (env : Env) (width height pbo : Nat) (dst : Channel)
    (flags : RegisterFlags) (s : DenoiserOptix) :
    (createDone env width height pbo dst flags s).trace.length = s.trace.length + 5 := by
  simp [trace_createDone, length_eventsFrom, createCalls]

theorem cerr_bindDone (env : Env) (window : PTWindow) (s : DenoiserOptix) :
    (bindDone env window s).cerr =
      s.cerr ++
        mismatchLine (env (s.trace.length + 3)).numBytes
          (expectedBytes window.texWidth window.texHeight) ++
        mismatchLine (env (s.trace.length + 8)).numBytes
          (expectedBytes window.texWidth window.texHeight) ++
        mismatchLine (env (s.trace.length + 13)).numBytes
          (expectedBytes window.texWidth window.texHeight) := by
  have h : (bindDone env window s).cerr =
      (createDone env window.texWidth window.texHeight window.albedoPBO .albedo .readOnly
        (createDone env window.texWidth window.texHeight window.normalPBO .normal .readOnly
          (createDone env window.texWidth window.texHeight window.pbo .color .none s))).cerr := rfl
  rw [h]
  simp only [cerr_createDone, length_createDone, Nat.add_assoc, Nat.reduceAdd]

theorem bindDone_fields (env : Env) (window : PTWindow) (s : DenoiserOptix) :
    { bindDone env window s with cerr := [], trace := [] } =
      { optixContext := s.optixContext
        handleColor := (env (s.trace.length + 1)).ptr
        handleNormal := (env (s.trace.length + 6)).ptr
        handleAlbedo := (env (s.trace.length + 11)).ptr
        denoiser := (env (createIndex (bindRegistered env window s))).ptr
        denoiserIntensity := ⟨(env (createIndex (bindRegistered env window s) + 3)).ptr, sizeofFloat⟩
        denoiserScratch := ⟨(env (createIndex (bindRegistered env window s) + 4)).ptr,
          (env (createIndex (bindRegistered env window s) + 2)).sizes.recommendedScratchSizeInBytes⟩
        denoiserState := ⟨(env (createIndex (bindRegistered env window s) + 5)).ptr,
          (env (createIndex (bindRegistered env window s) + 2)).sizes.stateSizeInBytes⟩
        fbWidth := window.texWidth
        fbHeight := window.texHeight
        denoiseBlend := s.denoiseBlend
        trace := []
        cerr := [] } := by
  obtain ⟨h1, h2, h3, h4, h5, h6, h7⟩ := bindRegistered_fields env window s
  simp only [bindDone, setupDone, h2, h3, h5, h6, h7]

theorem createIndex_bindRegistered (env : Env) (window : PTWindow) (s : DenoiserOptix) :
    createIndex (bindRegistered env window s) =
      if s.denoiser ≠ 0 then s.trace.length + 17 else s.trace.length + 16 := by
  obtain ⟨h1, -, -, h4, -⟩ := bindRegistered_fields env window s
  simp only [createIndex, h1, h4]

theorem eventsFrom_ok_withNumBytes (env : Env) (f : Nat → Nat) (n : Nat) (cs : List Call) :
    (∀ e ∈ eventsFrom (withNumBytes env f) n cs, e.reply.ok = true) ↔
      (∀ e ∈ eventsFrom env n cs, e.reply.ok = true) := by
  induction cs generalizing n with
  | nil => simp [eventsFrom]
  | cons c cs ih =>
    simp only [eventsFrom, List.mem_cons, forall_eq_or_imp, ih]
    rfl

theorem map_forget_eventsFrom (env : Env) (f : Nat → Nat) (n : Nat) (cs : List Call) :
    (eventsFrom (withNumBytes env f) n cs).map Event.forgetBytes =
      (eventsFrom env n cs).map Event.forgetBytes := by
  induction cs generalizing n with
  | nil => rfl
  | cons c cs ih =>
    simp only [eventsFrom, List.map_cons, ih]
    rfl

theorem setupCalls_withNumBytes (env : Env) (f : Nat → Nat) (window : PTWindow)
    (s : DenoiserOptix) :
    setupCalls (withNumBytes env f) window.texWidth window.texHeight
        (bindRegistered (withNumBytes env f) window s) =
      setupCalls env window.texWidth window.texHeight (bindRegistered env window s) := by
  obtain ⟨h1, h2, -⟩ := bindRegistered_fields env window s
  obtain ⟨g1, g2, -⟩ := bindRegistered_fields (withNumBytes env f) window s
  simp only [setupCalls, createIndex_bindRegistered, h1, h2, g1, g2]
  rfl

theorem bindOk_withNumBytes (env : Env) (f : Nat → Nat) (window : PTWindow)
    (s : DenoiserOptix) : bindOk (withNumBytes env f) window s ↔ bindOk env window s := by
  have hl := (bindRegistered_fields env window s).2.2.2.1
  have hl2 := (bindRegistered_fields (withNumBytes env f) window s).2.2.2.1
  simp only [bindOk, createOk, length_createDone, setupCalls_withNumBytes, hl, hl2,
    eventsFrom_ok_withNumBytes]
  rfl

theorem isOk_bindBuffers_iff (env : Env) (window : PTWindow) (s : DenoiserOptix) :
    (bindBuffers env window s).isOk = true ↔ bindOk env window s := by
  constructor
  · intro h
    exact ((bindBuffers_ok_iff env window s _ ()).mp (ok_of_isOk _ h)).1
  · intro h
    rw [(bindBuffers_ok_iff env window s _ ()).mpr ⟨h, rfl⟩]
    rfl

theorem forgetBytes_eq (t t2 : DenoiserOptix)
    (h1 : { t with cerr := [], trace := [] } = { t2 with cerr := [], trace := [] })
    (h2 : t.trace.map Event.forgetBytes = t2.trace.map Event.forgetBytes) :
    t.forgetBytes = t2.forgetBytes := by
  cases t
  cases t2
  simp only [DenoiserOptix.forgetBytes, DenoiserOptix.mk.injEq] at h1 h2 ⊢
  obtain ⟨a1, a2, a3, a4, a5, a6, a7, a8, a9, a10, a11, -, -⟩ := h1
  exact ⟨a1, a2, a3, a4, a5, a6, a7, a8, a9, a10, a11, h2, trivial⟩

theorem forgetBytes_bindDone (env : Env) (f : Nat → Nat) (window : PTWindow)
    (s : DenoiserOptix) :
    (bindDone (withNumBytes env f) window s).forgetBytes = (bindDone env window s).forgetBytes := by
  apply forgetBytes_eq
  · rw [bindDone_fields, bindDone_fields]
    simp only [createIndex_bindRegistered]
    rfl
  · rw [trace_bindDone, trace_bindDone]
    simp only [List.map_append, map_forget_eventsFrom, setupCalls_withNumBytes, List.map_cons,
      List.map_nil]
    rfl

/-- C8: let the mappings of the registered buffers report arbitrary byte counts `f`.
(a) `bindBuffers` returns normally exactly when it does with the expected count
`width * height * 16` (computed in `size_t`) reported everywhere: a mismatch never makes it
end early.  (b) When it returns normally it has issued, whatever the counts, the five calls
of `create` for each of the three buffers (bind, register, map, query, unmap), the reset
of the binding and the calls of `setupDenoiser(width, height)`, the handle members hold the
three registrations, and the object is the one obtained with the expected counts in all
members and in the logged calls and their outcomes; the one difference is `std::cerr`,
which has received one line for each buffer whose count is not the expected one, and none
with the expected counts.  (c) The expected count is `width * height * 16` whenever this
product fits in `size_t`. -/
theorem size_mismatch_only_logged (env : Env) (f : Nat → Nat) (window : PTWindow)
    (s : DenoiserOptix) :
    (bindBuffers (withNumBytes env f) window s).isOk =
      (bindBuffers
        (withNumBytes env fun _ => expectedBytes window.texWidth window.texHeight)
        window s).isOk ∧
    ((bindBuffers (withNumBytes env f) window s).isOk = true →
      (bindBuffers (withNumBytes env f) window s).final.forgetBytes =
        (bindBuffers
          (withNumBytes env fun _ => expectedBytes window.texWidth window.texHeight)
          window s).final.forgetBytes ∧
      (newEvents s (bindBuffers (withNumBytes env f) window s).final).map Event.call =
        createCalls window.pbo .color .none
            (bindBuffers (withNumBytes env f) window s).final.handleColor ++
          createCalls window.normalPBO .normal .readOnly
            (bindBuffers (withNumBytes env f) window s).final.handleNormal ++
          createCalls window.albedoPBO .albedo .readOnly
            (bindBuffers (withNumBytes env f) window s).final.handleAlbedo ++
          [.glBindBuffer 0] ++
          setupCalls env window.texWidth window.texHeight (bindRegistered env window s) ∧
      (bindBuffers (withNumBytes env f) window s).final.cerr =
        s.cerr ++
          mismatchLine (f (s.trace.length + 3))
            (expectedBytes window.texWidth window.texHeight) ++
          mismatchLine (f (s.trace.length + 8))
            (expectedBytes window.texWidth window.texHeight) ++
          mismatchLine (f (s.trace.length + 13))
            (expectedBytes window.texWidth window.texHeight) ∧
      (bindBuffers
        (withNumBytes env fun _ => expectedBytes window.texWidth window.texHeight)
        window s).final.cerr = s.cerr) ∧
    (window.texWidth * window.texHeight * 16 < 2 ^ 64 →
      expectedBytes window.texWidth window.texHeight =
        window.texWidth * window.texHeight * 16) := by
  have hiff : ∀ g : Nat → Nat,
      ((bindBuffers (withNumBytes env g) window s).isOk = true ↔ bindOk env window s) :=
    fun g => (isOk_bindBuffers_iff _ window s).trans (bindOk_withNumBytes env g window s)
  have hdone : ∀ g : Nat → Nat, bindOk env window s →
      (bindBuffers (withNumBytes env g) window s).final = bindDone (withNumBytes env g) window s := by
    intro g hok
    rw [(bindBuffers_ok_iff _ window s _ ()).mpr
      ⟨(bindOk_withNumBytes env g window s).mpr hok, rfl⟩]
    rfl
  refine ⟨?_, ?_, fun hlt => Nat.mod_eq_of_lt hlt⟩
  · by_cases h : bindOk env window s
    · rw [(hiff f).mpr h, (hiff _).mpr h]
    · have h1 : (bindBuffers (withNumBytes env f) window s).isOk = false := by
        rw [← Bool.not_eq_true]
        exact fun hh => h ((hiff f).mp hh)
      have h2 : (bindBuffers
          (withNumBytes env fun _ => expectedBytes window.texWidth window.texHeight)
          window s).isOk = false := by
        rw [← Bool.not_eq_true]
        exact fun hh => h ((hiff _).mp hh)
      rw [h1, h2]
  · intro hok
    have hb := (hiff f).mp hok
    rw [hdone f hb, hdone _ hb]
    refine ⟨?_, ?_, ?_, ?_⟩
    · rw [forgetBytes_bindDone, forgetBytes_bindDone]
    · obtain ⟨e1, e2, e3⟩ := bindDone_handle (withNumBytes env f) window s
      have e1' : (bindDone (withNumBytes env f) window s).handleColor = _ := e1
      have e2' : (bindDone (withNumBytes env f) window s).handleNormal = _ := e2
      have e3' : (bindDone (withNumBytes env f) window s).handleAlbedo = _ := e3
      rw [newEvents_bindDone, e1', e2', e3']
      simp only [List.map_append, map_call_eventsFrom, setupCalls_withNumBytes, List.map_cons,
        List.map_nil]
    · rw [cerr_bindDone]
      rfl
    · rw [cerr_bindDone]
      simp [mismatchLine, withNumBytes]

/-- A sample run: every library call succeeds and the three mappings report 7 bytes
where 256 are expected; `bindBuffers` returns normally and three lines are written. -/
theorem size_mismatch_only_logged_witness :
    (bindBuffers (withNumBytes sampleEnv fun _ => 7) smallWindow fresh).final.cerr =
      [(7, 256), (7, 256), (7, 256)] := by
  have h := ((size_mismatch_only_logged sampleEnv (fun _ => 7) smallWindow fresh).2.1
    (by decide)).2.2.1
  rw [h]
  decide

end Fluctus
